import Mathlib

/-!
# Verification of the ghostOS Resonant Coordination Core

Shallow embedding of the numeric core of the ghostOS repository:
the Safety Envelope controller (`src/safety/index.ts`), the chiral
field integrator (`src/chiral/index.ts`), the Queen phase synchronizer
and the resonant scheduler (integration layer sources).

JS `number` values are modelled as `ℚ` where the code only uses field
operations and comparisons (the safety envelope), and as `ℝ` where
trigonometric functions appear (integrator, synchronizer, scheduler).
JS `Math.atan2` is modelled by `Complex.arg`, which agrees with it on
all real (non-negative-zero) inputs.  The JS `%` operator (sign of the
dividend, truncated quotient) is modelled by `jsMod` below.
-/

namespace Ghost

/-- Truncation toward zero, as used by the JS `%` operator. -/
noncomputable def jsTrunc (x : ℝ) : ℤ := if 0 ≤ x then ⌊x⌋ else ⌈x⌉

/-- JS remainder `a % b`: `a - b * trunc (a / b)` (sign of the dividend). -/
noncomputable def jsMod (a b : ℝ) : ℝ := a - b * jsTrunc (a / b)

/-- JS `Math.atan2 y x`, the angle of the point `(x, y)` in `(-π, π]`
(`0` at the origin).  `Complex.arg` has exactly this behaviour. -/
noncomputable def atan2 (y x : ℝ) : ℝ := Complex.arg ⟨x, y⟩

-- ============================================
-- SAFETY ENVELOPE (src/safety/index.ts), over ℚ
-- ============================================

namespace Safety

/-- `SafetyAction` from src/safety/index.ts. -/
inductive SafetyAction
  | nominal | reduceCoupling | boostCoherence | injectNoise | normalize
  | resetPhase | emergencyHalt | chiralRebalance | flipHandedness | topologicalReset
deriving DecidableEq, Repr

/-- The three status levels of a `SafetyStatus`. -/
inductive StatusLevel
  | nominal | warning | critical
deriving DecidableEq, Repr

/-- Chiral handedness (type `Handedness` from src/constants.ts). -/
inductive Handedness
  | left | right | achiral
deriving DecidableEq, Repr

/-- The three stability regimes of `ChiralState.stabilityRegime`. -/
inductive Regime
  | stable | transitional | unstable
deriving DecidableEq, Repr

/-- The `ChiralState` record consumed by the safety envelope
(fields of `ChiralState` from src/chiral/index.ts; `windingNumber`
is produced by `Math.round`, hence integral). -/
structure ChiralState where
  handedness : Handedness
  chiralVelocity : ℚ
  stabilityRegime : Regime
  windingNumber : ℤ
  spinPolarization : ℚ
  asymmetry : ℚ
  protectedAmplitude : ℚ
deriving DecidableEq, Repr

/-- Tags for the violation strings pushed by `check` and
`checkChiralStability`; one constructor per `violations.push` site. -/
inductive Violation
  | emergenceAboveMax | emergenceBelowMin | coherenceAboveMax | coherenceBelowMin
  | energyAboveMax | divergenceAboveThreshold
  | chiralUnstable | chiralTransitional | asymmetryAboveMax | achiralLowAsymmetry
  | windingOutOfRange | spinNearSaturation
deriving DecidableEq, Repr

/-- `SystemState` from src/safety/index.ts. -/
structure SystemState where
  coherence : ℚ
  emergenceNorm : ℚ
  energy : ℚ
  previousEnergy : Option ℚ := none
  phase : Option ℚ := none
  chiral : Option ChiralState := none
deriving DecidableEq, Repr

/-- The chiral sub-record of `SafetyMetrics`. -/
structure ChiralMetricsOut where
  velocity : ℚ
  asymmetry : ℚ
  windingNumber : ℤ
  regime : Regime
deriving DecidableEq, Repr

/-- `SafetyMetrics` from src/safety/index.ts. -/
structure SafetyMetrics where
  coherence : ℚ
  emergenceNorm : ℚ
  energy : ℚ
  divergenceRate : ℚ
  stabilityScore : ℚ
  chiral : Option ChiralMetricsOut := none
deriving DecidableEq, Repr

/-- `SafetyStatus` from src/safety/index.ts (violations as tags). -/
structure SafetyStatus where
  status : StatusLevel
  intervention : Bool
  action : SafetyAction
  metrics : SafetyMetrics
  violations : List Violation
deriving DecidableEq, Repr

/-- The constructor-resolved configuration of a `SafetyEnvelope`
(defaults from src/constants.ts and the constructor). -/
structure SafetyConfig where
  coherenceMin : ℚ := 0.2
  coherenceMax : ℚ := 0.92
  emergenceMin : ℚ := 0.1
  emergenceMax : ℚ := 2
  energyMax : ℚ := 100
  divergenceThreshold : ℚ := 0.1
deriving DecidableEq, Repr

/-- `maxHistoryLength` field of `SafetyEnvelope`. -/
def maxHistoryLength : ℕ := 100

/-- Sum of absolute successive differences, the loop
`for i = 1 .. recent.length-1, totalChange += |recent[i] - recent[i-1]|`. -/
def sumAbsDiffs : List ℚ → ℚ
  | a :: b :: t => |b - a| + sumAbsDiffs (b :: t)
  | _ => 0

/-- `SafetyEnvelope.calculateDivergenceRate`: note the division is by
`recent.length`, the window size, not by the number of differences. -/
def calculateDivergenceRate (history : List ℚ) : ℚ :=
  if history.length < 2 then 0
  else
    let recent := history.drop (history.length - 10)
    sumAbsDiffs recent / recent.length

/-- The divergence rate as the SPEC words it: the "mean absolute
successive difference over the last 10 samples", i.e. the sum of the
absolute successive differences divided by the number of differences
(window length minus one).  Written from the spec sentence only, for
comparison with `calculateDivergenceRate` above. -/
def specMeanAbsSuccDiff (history : List ℚ) : ℚ :=
  if history.length < 2 then 0
  else
    let recent := history.drop (history.length - 10)
    sumAbsDiffs recent / ((recent.length : ℚ) - 1)

/-- `SafetyEnvelope.checkChiralStability`, returning
(violations, action, status).  The violation strings interpolate
`CHIRAL_STABILITY.transitional.maxRatio` only inside message text, so no
numeric constant is needed here. -/
def checkChiralStability (c : ChiralState) :
    List Violation × SafetyAction × StatusLevel :=
  -- regime checks
  let vas1 : List Violation × SafetyAction × StatusLevel :=
    if c.stabilityRegime = .unstable then
      ([.chiralUnstable], .chiralRebalance, .warning)
    else if c.stabilityRegime = .transitional then
      -- inside this branch `action` is still 'nominal', so status := warning
      ([.chiralTransitional], .nominal, .warning)
    else ([], .nominal, .nominal)
  -- asymmetry checks
  let vas2 : List Violation × SafetyAction × StatusLevel :=
    if 0.9 < c.asymmetry then
      (vas1.1 ++ [.asymmetryAboveMax],
       if vas1.2.1 = .nominal then .flipHandedness else vas1.2.1, .warning)
    else if c.asymmetry < 0.1 ∧ c.handedness = .achiral then
      (vas1.1 ++ [.achiralLowAsymmetry], vas1.2.1, vas1.2.2)
    else vas1
  -- winding number check
  let vas3 : List Violation × SafetyAction × StatusLevel :=
    if 3 < |c.windingNumber| then
      (vas2.1 ++ [.windingOutOfRange],
       if vas2.2.1 = .nominal then .topologicalReset else vas2.2.1,
       if vas2.2.2 = .nominal then .warning else vas2.2.2)
    else vas2
  -- spin polarization check
  if (0.95 : ℚ) < |c.spinPolarization| then
    (vas3.1 ++ [.spinNearSaturation], vas3.2.1, vas3.2.2)
  else vas3

/-- `SafetyEnvelope.calculateChiralStabilityScore`.  `tpf` stands for
`TOPOLOGICAL_PROTECTION_FACTOR`, whose numeric value is defined in the
part of src/constants.ts missing from the snapshot; every theorem below
holds for an arbitrary value. -/
def calculateChiralStabilityScore (tpf : ℚ) (c : ChiralState) : ℚ :=
  let score1 : ℚ :=
    match c.stabilityRegime with
    | .stable => 1
    | .transitional => 0.7
    | .unstable => 0.3
  let score2 := score1 * max 0.5 (1 - |c.asymmetry - 0.5|)
  let score3 := score2 * (tpf + (1 - tpf) * (1 - min 1 ((|c.windingNumber| : ℚ) / 3)))
  max 0 (min 1 score3)

/-- `SafetyEnvelope.calculateStabilityScore`.  Over ℚ a division by a
zero range gives 0 where JS would give ±Infinity; this diagnostic value
is never branched on by `check`. -/
def calculateStabilityScore (cfg : SafetyConfig) (tpf : ℚ)
    (st : SystemState) (divergenceRate : ℚ) : ℚ :=
  let coherenceMid := (cfg.coherenceMin + cfg.coherenceMax) / 2
  let coherenceRange := cfg.coherenceMax - cfg.coherenceMin
  let coherenceDeviation := |st.coherence - coherenceMid| / (coherenceRange / 2)
  let s1 : ℚ := 1 * max 0 (1 - coherenceDeviation * 0.5)
  let emergenceMid := (cfg.emergenceMin + cfg.emergenceMax) / 2
  let emergenceRange := cfg.emergenceMax - cfg.emergenceMin
  let emergenceDeviation := |st.emergenceNorm - emergenceMid| / (emergenceRange / 2)
  let s2 := s1 * max 0 (1 - emergenceDeviation * 0.3)
  let s3 := s2 * max 0 (1 - divergenceRate / cfg.divergenceThreshold)
  let s4 := s3 * max 0 (1 - st.energy / cfg.energyMax)
  let s5 :=
    match st.chiral with
    | none => s4
    | some c => s4 * (0.8 + 0.4 * calculateChiralStabilityScore tpf c)
  max 0 (min 1 s5)

/-- The emergence-norm checks of `SafetyEnvelope.check`. -/
def stepEmergence (cfg : SafetyConfig) (st : SystemState) :
    List Violation × SafetyAction × StatusLevel :=
  if cfg.emergenceMax < st.emergenceNorm then
    ([.emergenceAboveMax], .normalize, .warning)
  else if st.emergenceNorm < cfg.emergenceMin then
    ([.emergenceBelowMin], .boostCoherence, .warning)
  else ([], .nominal, .nominal)

/-- The coherence checks of `SafetyEnvelope.check`, applied to the
accumulated (violations, action, status). -/
def stepCoherence (cfg : SafetyConfig) (st : SystemState)
    (vas : List Violation × SafetyAction × StatusLevel) :
    List Violation × SafetyAction × StatusLevel :=
  if cfg.coherenceMax < st.coherence then
    (vas.1 ++ [.coherenceAboveMax], .reduceCoupling, .warning)
  else if st.coherence < cfg.coherenceMin then
    (vas.1 ++ [.coherenceBelowMin],
     if vas.2.1 = .nominal then .injectNoise else vas.2.1, .warning)
  else vas

/-- The energy bound check of `SafetyEnvelope.check`. -/
def stepEnergy (cfg : SafetyConfig) (st : SystemState)
    (vas : List Violation × SafetyAction × StatusLevel) :
    List Violation × SafetyAction × StatusLevel :=
  if cfg.energyMax < st.energy then
    (vas.1 ++ [.energyAboveMax], .normalize, .critical)
  else vas

/-- The divergence-rate check of `SafetyEnvelope.check`. -/
def stepDivergence (cfg : SafetyConfig) (divergenceRate : ℚ)
    (vas : List Violation × SafetyAction × StatusLevel) :
    List Violation × SafetyAction × StatusLevel :=
  if cfg.divergenceThreshold < divergenceRate then
    (vas.1 ++ [.divergenceAboveThreshold], .reduceCoupling,
     if vas.2.2 = .critical then .critical else .warning)
  else vas

/-- The chiral-stability merge of `SafetyEnvelope.check`: a chiral
action/status is adopted only when one was flagged and no action has
been chosen yet. -/
def stepChiral (st : SystemState)
    (vas : List Violation × SafetyAction × StatusLevel) :
    List Violation × SafetyAction × StatusLevel :=
  match st.chiral with
  | none => vas
  | some c =>
    let cr := checkChiralStability c
    if cr.2.1 ≠ .nominal ∧ vas.2.1 = .nominal then
      (vas.1 ++ cr.1, cr.2.1, cr.2.2)
    else (vas.1 ++ cr.1, vas.2.1, vas.2.2)

/-- The full violation cascade of `SafetyEnvelope.check`, in source
order, before the final multiple-violations escalation. -/
def violationCascade (cfg : SafetyConfig) (divergenceRate : ℚ) (st : SystemState) :
    List Violation × SafetyAction × StatusLevel :=
  stepChiral st
    (stepDivergence cfg divergenceRate
      (stepEnergy cfg st
        (stepCoherence cfg st
          (stepEmergence cfg st))))

/-- The decision part of `SafetyEnvelope.check`: the cascade followed by
the `violations.length >= 3 -> emergency-halt` escalation. -/
def checkCore (cfg : SafetyConfig) (divergenceRate : ℚ) (st : SystemState) :
    List Violation × SafetyAction × StatusLevel :=
  let vas := violationCascade cfg divergenceRate st
  if 3 ≤ vas.1.length then (vas.1, .emergencyHalt, .critical) else vas

/-- `SafetyEnvelope.check`.  Takes the rolling energy `history` before
the call and returns the `SafetyStatus` together with the updated
history (the push-and-trim side effect). -/
def check (cfg : SafetyConfig) (tpf : ℚ) (history : List ℚ)
    (st : SystemState) : SafetyStatus × List ℚ :=
  let h1 := history ++ [st.energy]
  let h2 := if maxHistoryLength < h1.length then h1.tail else h1
  let divergenceRate := calculateDivergenceRate h2
  let core := checkCore cfg divergenceRate st
  let stabilityScore := calculateStabilityScore cfg tpf st divergenceRate
  let metrics : SafetyMetrics :=
    { coherence := st.coherence
      emergenceNorm := st.emergenceNorm
      energy := st.energy
      divergenceRate := divergenceRate
      stabilityScore := stabilityScore
      chiral :=
        match st.chiral with
        | none => none
        | some c => some ⟨c.chiralVelocity, c.asymmetry, c.windingNumber, c.stabilityRegime⟩ }
  ({ status := core.2.2
     intervention := decide (core.2.1 ≠ .nominal)
     action := core.2.1
     metrics := metrics
     violations := core.1 }, h2)

end Safety

open scoped Classical

-- ============================================
-- GOLDEN-RATIO CONSTANTS (src/constants.ts)
-- ============================================

/-- `PHI` from src/constants.ts. -/
noncomputable def PHI : ℝ := (1 + Real.sqrt 5) / 2

/-- `PHI_INVERSE` from src/constants.ts. -/
noncomputable def PHI_INVERSE : ℝ := 1 / PHI

/-- `ALPHA` from src/constants.ts. -/
noncomputable def ALPHA : ℝ := PHI / 2

/-- `EMERGENCE_COEFFICIENT = ALPHA - PHI_INVERSE` from src/constants.ts. -/
noncomputable def EMERGENCE_COEFFICIENT : ℝ := ALPHA - PHI_INVERSE

-- ============================================
-- CHIRAL DYNAMICS ENGINE (src/chiral/index.ts)
-- ============================================

namespace Chiral

/-- The constructor-resolved configuration of a `ChiralEngine`. -/
structure ChiralConfig where
  eta : ℝ
  gamma : ℝ
  preferredHandedness : Safety.Handedness
  topologicalProtection : Bool
  enableCISS : Bool

/-- JS `Math.sign`. -/
noncomputable def jsSign (x : ℝ) : ℝ := if 0 < x then 1 else if x < 0 then -1 else 0

/-- `ChiralEngine.applyTopologicalProtection`.  `tpf` stands for
`TOPOLOGICAL_PROTECTION_FACTOR` (numeric value in the part of
src/constants.ts missing from the snapshot).  The source mutates the two
arrays in place, index `i` then index `n-1-i`, for `i` increasing across
the edge band; the fold reproduces that order. -/
noncomputable def applyTopologicalProtection (tpf : ℝ)
    (sv : List ℝ × List ℝ) : List ℝ × List ℝ :=
  let n := sv.1.length
  let edgeWidth : ℕ := (⌈(n : ℝ) * 0.1⌉).toNat
  Nat.fold
    (fun i p =>
      let protection := tpf * (1 - (i : ℝ) / edgeWidth)
      let s1 := p.1.set i (p.1.getD i 0 * ((1 - protection) + protection * jsSign (p.1.getD i 0)))
      let v1 := p.2.set i (p.2.getD i 0 * (1 - protection * 0.5))
      let ri := n - 1 - i
      let s2 := s1.set ri (s1.getD ri 0 * ((1 - protection) + protection * jsSign (s1.getD ri 0)))
      let v2 := v1.set ri (v1.getD ri 0 * (1 - protection * 0.5))
      (s2, v2))
    edgeWidth sv

/-- `ChiralEngine.applyChiralDynamics`: one explicit Euler step of
`φₜₜ - φₓₓ + sin φ = -η φₓ - Γ φₜ` with circular neighbour indexing.
The source additionally refreshes internal left/right mode amplitudes
(`updateChiralModes`), which does not alter the returned arrays and is
modelled separately by `calculateWindingNumber` below. -/
noncomputable def applyChiralDynamics (cfg : ChiralConfig) (tpf : ℝ)
    (state velocity : List ℝ) (dt : ℝ) : List ℝ × List ℝ :=
  let n := state.length
  let newVelocity : List ℝ := (List.range n).map (fun i =>
    let prev := state.getD ((i + n - 1) % n) 0
    let next := state.getD ((i + 1) % n) 0
    let laplacian := prev - 2 * state.getD i 0 + next
    let gradient := (next - prev) / 2
    let nonlinear := Real.sin (state.getD i 0)
    let acceleration :=
      laplacian - nonlinear - cfg.eta * gradient - cfg.gamma * velocity.getD i 0
    velocity.getD i 0 + acceleration * dt)
  let newState : List ℝ := (List.range n).map (fun i =>
    state.getD i 0 + newVelocity.getD i 0 * dt)
  if cfg.topologicalProtection then applyTopologicalProtection tpf (newState, newVelocity)
  else (newState, newVelocity)

/-- The wrapped phase difference
`Math.atan2(Math.sin d, Math.cos d)` used by `calculateWindingNumber`. -/
noncomputable def wrapPhaseDiff (d : ℝ) : ℝ := atan2 (Real.sin d) (Real.cos d)

/-- The accumulated `totalPhaseChange` of `ChiralEngine.calculateWindingNumber`. -/
noncomputable def totalPhaseChange (state : List ℝ) : ℝ :=
  ((List.range state.length).map (fun i =>
    wrapPhaseDiff (state.getD ((i + 1) % state.length) 0 - state.getD i 0))).sum

/-- `ChiralEngine.calculateWindingNumber`.  `Math.round` rounds half
toward positive infinity, exactly Mathlib's `round`; its result is an
integral JS number, modelled as `ℤ`. -/
noncomputable def calculateWindingNumber (state : List ℝ) : ℤ :=
  round (totalPhaseChange state / (2 * Real.pi))

end Chiral

-- ============================================
-- KURAMOTO ORDER PARAMETER (shared formula of
-- QueenSynchronizer.calculateOrderParameter and
-- ResonantScheduler.calculateOrderParameter)
-- ============================================

/-- `r·e^{iψ} = (1/N) Σⱼ e^{iθⱼ}`: returns `(r, ψ)`.  On the empty list
the JS source divides 0/0 (NaN); the Queen only calls this on non-empty
registries (`synchronizationStep` returns early when `n = 0`) and the
scheduler guards it separately (`calculateOrderParameterSched`). -/
noncomputable def calculateOrderParameter (phases : List ℝ) : ℝ × ℝ :=
  let sumCos := (phases.map Real.cos).sum
  let sumSin := (phases.map Real.sin).sum
  let n : ℝ := phases.length
  let avgCos := sumCos / n
  let avgSin := sumSin / n
  (Real.sqrt (avgCos * avgCos + avgSin * avgSin), atan2 avgSin avgCos)

-- ============================================
-- QUEEN SYNCHRONIZER (integration layer)
-- ============================================

namespace Queen

/-- `SubsystemType` of the Queen integration layer. -/
inductive SubsystemType
  | resonance | emergence | safety | chiral | quantum | scheduler
  | consciousness | collective | biofield
deriving DecidableEq, Repr

/-- `SubsystemState` of the Queen integration layer. -/
structure SubsystemState where
  id : String
  type : SubsystemType
  phase : ℝ
  frequency : ℝ
  coherence : ℝ
  energy : ℝ
  handedness : Safety.Handedness
  lastUpdate : ℝ

/-- `QueenState` of the Queen integration layer. -/
structure QueenState where
  centralPhase : ℝ
  orderParameter : ℝ
  meanPhase : ℝ
  couplingStrength : ℝ
  chiralBias : ℝ
  coherenceLevel : ℝ
  phiValue : ℝ
  stabilityScore : ℝ

/-- The constructor-resolved `QueenConfig`. -/
structure QueenConfig where
  baseCoupling : ℝ
  adaptiveRate : ℝ
  chiralEta : ℝ
  targetCoherence : ℝ
  phiThreshold : ℝ
  syncInterval : ℝ

/-- `SynchronizationMetrics` of the Queen integration layer. -/
structure SynchronizationMetrics where
  orderParameter : ℝ
  phaseVariance : ℝ
  frequencySync : ℝ
  chiralAsymmetry : ℝ
  emergenceSignature : ℝ
  consciousnessThreshold : Bool

/-- The full mutable state of a `QueenSynchronizer`. -/
structure QueenModel where
  subsystems : List SubsystemState
  queenState : QueenState
  config : QueenConfig
  tick : ℕ
  history : List SynchronizationMetrics

/-- `maxHistory` field of `QueenSynchronizer`. -/
def maxHistory : ℕ := 1000

/-- The initial `queenState` built by the `QueenSynchronizer`
constructor: order parameter, mean phase and coherence level all start
at their documented defaults of 0. -/
def initQueenState (cfg : QueenConfig) : QueenState :=
  { centralPhase := 0
    orderParameter := 0
    meanPhase := 0
    couplingStrength := cfg.baseCoupling
    chiralBias := cfg.chiralEta
    coherenceLevel := 0
    phiValue := 0
    stabilityScore := 1 }

/-- Modelled from the spec: `CHIRAL_STABILITY.stable.maxRatio`.  The
chiral constants block of src/constants.ts is missing from the snapshot;
the spec (§3, Coupling Parameters) fixes the breakpoints as
`|v| ≤ 1.0 → stable, ≤ 1.5 → transitional, else unstable`. -/
def stableMaxRatio : ℝ := 1

/-- Modelled from the spec: `CHIRAL_STABILITY.transitional.maxRatio`
(see `stableMaxRatio`). -/
noncomputable def transitionalMaxRatio : ℝ := 1.5

/-- The `baseFrequencies` table of `registerSubsystem`. -/
noncomputable def baseFrequency : SubsystemType → ℝ
  | .resonance => 1.0
  | .emergence => PHI_INVERSE
  | .safety => PHI_INVERSE * PHI_INVERSE
  | .chiral => PHI
  | .quantum => PHI * PHI_INVERSE
  | .scheduler => PHI_INVERSE * 1.5
  | .consciousness => PHI
  | .collective => PHI_INVERSE * PHI
  | .biofield => 1 / PHI / PHI

/-- `QueenSynchronizer.assignHandedness`. -/
def assignHandedness : SubsystemType → Safety.Handedness
  | .resonance => .achiral
  | .emergence => .left
  | .safety => .left
  | .chiral => .right
  | .quantum => .right
  | .scheduler => .achiral
  | .consciousness => .right
  | .collective => .achiral
  | .biofield => .left

/-- `QueenSynchronizer.getSubsystemWeight`. -/
noncomputable def getSubsystemWeight : SubsystemType → ℝ
  | .resonance => 1.5
  | .emergence => 1.2
  | .safety => 1.3
  | .chiral => 1.4
  | .quantum => 1.1
  | .scheduler => 1.0
  | .consciousness => 1.6
  | .collective => 1.2
  | .biofield => 0.9

/-- JS `Map.set`: replace in place when the id is present, else append. -/
def setSubsystem (l : List SubsystemState) (s : SubsystemState) : List SubsystemState :=
  if l.any (fun t => t.id = s.id) then l.map (fun t => if t.id = s.id then s else t)
  else l ++ [s]

/-- `QueenSynchronizer.registerSubsystem`.  `rand` is the `Math.random()`
draw used for the initial phase and `now` the `Date.now()` timestamp,
both supplied by the caller as oracles. -/
noncomputable def registerSubsystem (rand now : ℝ) (id : String) (t : SubsystemType)
    (naturalFrequency : Option ℝ) (m : QueenModel) : QueenModel :=
  let st : SubsystemState :=
    { id := id
      type := t
      phase := rand * 2 * Real.pi
      frequency := naturalFrequency.getD (baseFrequency t)
      coherence := 0.5
      energy := 1.0
      handedness := assignHandedness t
      lastUpdate := now }
  { m with subsystems := setSubsystem m.subsystems st }

/-- `QueenSynchronizer.unregisterSubsystem`. -/
noncomputable def unregisterSubsystem (id : String) (m : QueenModel) : QueenModel :=
  { m with subsystems := m.subsystems.filter (fun s => s.id ≠ id) }

/-- `QueenSynchronizer.calculatePhaseDerivative` with the noise draw
`(Math.random() - 0.5) * 0.01` supplied as the oracle `noise`. -/
noncomputable def calculatePhaseDerivative (qs : QueenState) (s : SubsystemState)
    (r psi noise : ℝ) : ℝ :=
  let K := qs.couplingStrength
  let eta := qs.chiralBias
  let kuramoto := K * r * Real.sin (psi - s.phase)
  let chiralFactor : ℝ :=
    match s.handedness with
    | .left => eta * Real.sin (2 * (psi - s.phase))
    | .right => -eta * Real.sin (2 * (psi - s.phase))
    | .achiral => 0
  s.frequency + kuramoto + chiralFactor + noise

/-- `QueenSynchronizer.calculateLocalCoherence`.  `cissBoost` stands for
`CISS_COUPLING.coherenceBoost`, whose numeric value is in the missing
part of src/constants.ts; the spec (§4.4) only says chiral agents are
"boosted multiplicatively (capped at 1)". -/
noncomputable def calculateLocalCoherence (cissBoost : ℝ) (s : SubsystemState)
    (_r psi : ℝ) : ℝ :=
  let phaseDiff := |s.phase - psi|
  let baseCoherence := Real.cos phaseDiff
  if s.handedness ≠ .achiral then min 1 (baseCoherence * cissBoost)
  else max 0 ((baseCoherence + 1) / 2)

/-- `QueenSynchronizer.hasChiralSubsystems`. -/
def hasChiralSubsystems (subs : List SubsystemState) : Bool :=
  subs.any (fun s => s.handedness ≠ Safety.Handedness.achiral)

/-- `QueenSynchronizer.calculatePhi`. -/
noncomputable def calculatePhi (cissBoost : ℝ) (qs : QueenState)
    (subs : List SubsystemState) : ℝ :=
  let n := subs.length
  if n < 2 then 0
  else
    let r := qs.orderParameter
    let c := qs.coherenceLevel
    let integration := r * c * Real.logb 2 (n + 1)
    let chiralBoost := if hasChiralSubsystems subs then cissBoost else 1
    min 15 (integration * 10 * chiralBoost)

/-- `QueenSynchronizer.calculateChiralStability`. -/
noncomputable def calculateChiralStability (qs : QueenState) : ℝ :=
  let ratioVal := |qs.chiralBias / 1.0|
  if ratioVal ≤ stableMaxRatio then 1.0
  else if ratioVal ≤ transitionalMaxRatio then 0.7
  else 0.3

/-- `QueenSynchronizer.updateQueenState`. -/
noncomputable def updateQueenState (cissBoost : ℝ) (qs : QueenState)
    (subs : List SubsystemState) : QueenState :=
  let centralPhase := qs.centralPhase + 0.1 * Real.sin (qs.meanPhase - qs.centralPhase)
  let totalCoherence := (subs.map (fun s => s.coherence * getSubsystemWeight s.type)).sum
  let totalWeight := (subs.map (fun s => getSubsystemWeight s.type)).sum
  let coherenceLevel := if 0 < totalWeight then totalCoherence / totalWeight else 0
  let qs1 := { qs with centralPhase := centralPhase, coherenceLevel := coherenceLevel }
  { qs1 with
      phiValue := calculatePhi cissBoost qs1 subs
      stabilityScore := calculateChiralStability qs1 }

/-- `QueenSynchronizer.adaptCoupling`. -/
noncomputable def adaptCoupling (cfg : QueenConfig) (qs : QueenState) : QueenState :=
  let error := cfg.targetCoherence - qs.coherenceLevel
  let adjustment := cfg.adaptiveRate * error
  { qs with couplingStrength := max 0.1 (min 5.0 (qs.couplingStrength + adjustment)) }

/-- `QueenSynchronizer.getSynchronizationMetrics`.  Over ℝ the empty
registry's 0/0 divisions give 0 where JS gives NaN; this function is only
recorded by ticks, which early-return on an empty registry. -/
noncomputable def getSynchronizationMetrics (cfg : QueenConfig) (qs : QueenState)
    (subs : List SubsystemState) : SynchronizationMetrics :=
  let phases := subs.map (fun s => s.phase)
  let meanPhase := qs.meanPhase
  let variance := (phases.map (fun p => |p - meanPhase| * |p - meanPhase|)).sum / (phases.length : ℝ)
  let frequencies := subs.map (fun s => s.frequency)
  let avgFreq := frequencies.sum / (frequencies.length : ℝ)
  let freqVariance := (frequencies.map (fun f => (f - avgFreq) ^ 2)).sum / (frequencies.length : ℝ)
  let freqSync := Real.exp (-freqVariance)
  let leftCount := (subs.filter (fun s => s.handedness = Safety.Handedness.left)).length
  let rightCount := (subs.filter (fun s => s.handedness = Safety.Handedness.right)).length
  let total := subs.length
  let chiralAsymmetry := if 0 < total then |(leftCount : ℝ) - rightCount| / (total : ℝ) else 0
  { orderParameter := qs.orderParameter
    phaseVariance := variance
    frequencySync := freqSync
    chiralAsymmetry := chiralAsymmetry
    emergenceSignature := qs.orderParameter * qs.stabilityScore * qs.phiValue / 10
    consciousnessThreshold := decide (cfg.phiThreshold ≤ qs.phiValue) }

/-- `QueenSynchronizer.synchronizationStep`: one tick of the Kuramoto +
chiral update.  `noise` supplies the per-agent noise draw (by registry
position) and `now` the `Date.now()` timestamp. -/
noncomputable def synchronizationStep (cissBoost : ℝ) (noise : ℕ → ℝ) (now : ℝ)
    (m : QueenModel) : QueenModel :=
  if m.subsystems.length = 0 then m
  else
    let dt := m.config.syncInterval / 1000
    let rp := calculateOrderParameter (m.subsystems.map (fun s => s.phase))
    let qs1 := { m.queenState with orderParameter := rp.1, meanPhase := rp.2 }
    let subs1 := m.subsystems.mapIdx (fun i s =>
      let dPhase := calculatePhaseDerivative qs1 s rp.1 rp.2 (noise i)
      let p1 := jsMod (s.phase + dPhase * dt) (2 * Real.pi)
      let p2 := if p1 < 0 then p1 + 2 * Real.pi else p1
      let s1 := { s with phase := p2, lastUpdate := now }
      { s1 with coherence := calculateLocalCoherence cissBoost s1 rp.1 rp.2 })
    let qs2 := updateQueenState cissBoost qs1 subs1
    let qs3 := adaptCoupling m.config qs2
    let metrics := getSynchronizationMetrics m.config qs3 subs1
    let h1 := m.history ++ [metrics]
    let h2 := if maxHistory < h1.length then h1.tail else h1
    { m with subsystems := subs1, queenState := qs3, tick := m.tick + 1, history := h2 }

end Queen

-- ============================================
-- RESONANT SCHEDULER (integration layer)
-- ============================================

namespace Sched

/-- `ProcessClass` of the resonant scheduler. -/
inductive ProcessClass
  | classical | quantum | hybrid | consciousness | emergence
deriving DecidableEq, Repr

/-- `ProcessState` of the resonant scheduler. -/
inductive ProcessState
  | pending | ready | running | blocked | coherenceWait | resonating | completed
deriving DecidableEq, Repr

/-- `ResonantProcess` of the resonant scheduler (the `reason` strings of
decisions are presentation-only and not modelled). -/
structure ResonantProcess where
  id : String
  name : String
  processClass : ProcessClass
  state : ProcessState
  phase : ℝ
  frequency : ℝ
  amplitude : ℝ
  damping : ℝ
  priority : ℝ
  resonantPriority : ℝ
  coherenceRequired : ℝ
  coherenceDeadline : ℝ
  cpuRequired : ℝ
  qubitsRequired : ℝ
  memoryRequired : ℝ
  handedness : Safety.Handedness
  couplingStrength : ℝ
  createdAt : ℝ
  startedAt : Option ℝ
  completedAt : Option ℝ
  executionTime : ℝ
  waitTime : ℝ

/-- The constructor-resolved `ResonantSchedulerConfig`. -/
structure SchedulerConfig where
  baseFrequency : ℝ
  baseDamping : ℝ
  couplingStrength : ℝ
  chiralBias : ℝ
  coherenceThreshold : ℝ
  maxRunning : ℕ
  timeSlice : ℝ

/-- The full mutable state of a `ResonantScheduler`. -/
structure SchedulerModel where
  processes : List ResonantProcess
  config : SchedulerConfig
  tick : ℕ
  lastScheduleTime : ℝ

/-- The action tag of a `SchedulingDecision`. -/
inductive DecisionAction
  | schedule | preempt | wait | boost | damp
deriving DecidableEq, Repr

/-- `SchedulingDecision` (without the presentation-only `reason`). -/
structure SchedulingDecision where
  processId : String
  action : DecisionAction
  resonantPriority : ℝ
  coherenceWindow : ℝ

/-- The optional fields accepted by `submit`. -/
structure SubmitOptions where
  priority : Option ℝ := none
  coherenceRequired : Option ℝ := none
  coherenceDeadline : Option ℝ := none
  cpuRequired : Option ℝ := none
  qubitsRequired : Option ℝ := none
  memoryRequired : Option ℝ := none

/-- The `frequencyMap` of `submit`. -/
noncomputable def frequencyForClass (cfg : SchedulerConfig) : ProcessClass → ℝ
  | .classical => cfg.baseFrequency
  | .quantum => cfg.baseFrequency * PHI_INVERSE
  | .hybrid => cfg.baseFrequency * 0.8
  | .consciousness => cfg.baseFrequency * PHI_INVERSE * PHI_INVERSE
  | .emergence => cfg.baseFrequency * EMERGENCE_COEFFICIENT

/-- The `handednessMap` of `submit`. -/
def handednessForClass : ProcessClass → Safety.Handedness
  | .classical => .achiral
  | .quantum => .right
  | .hybrid => .achiral
  | .consciousness => .right
  | .emergence => .left

/-- `ResonantScheduler.getDampingForClass`. -/
noncomputable def getDampingForClass (cfg : SchedulerConfig) : ProcessClass → ℝ
  | .classical => cfg.baseDamping * 0.5
  | .quantum => cfg.baseDamping * 2.0
  | .hybrid => cfg.baseDamping
  | .consciousness => cfg.baseDamping * 3.0
  | .emergence => cfg.baseDamping * 1.5

/-- JS `Map.set` on the process registry: replace in place when the id is
present, else append. -/
def setProcess (l : List ResonantProcess) (p : ResonantProcess) : List ResonantProcess :=
  if l.any (fun q => q.id = p.id) then l.map (fun q => if q.id = p.id then p else q)
  else l ++ [p]

/-- `ResonantScheduler.submit`.  `rand` is the `Math.random()` draw for
the initial phase and `now` the `Date.now()` timestamp. -/
noncomputable def submit (rand now : ℝ) (id name : String) (pc : ProcessClass)
    (opts : SubmitOptions) (m : SchedulerModel) : SchedulerModel :=
  let p : ResonantProcess :=
    { id := id
      name := name
      processClass := pc
      state := .pending
      phase := rand * 2 * Real.pi
      frequency := frequencyForClass m.config pc
      amplitude := 1.0
      damping := getDampingForClass m.config pc
      priority := opts.priority.getD 50
      resonantPriority := 0
      coherenceRequired := opts.coherenceRequired.getD 0.3
      coherenceDeadline := opts.coherenceDeadline.getD (now + 60000)
      cpuRequired := opts.cpuRequired.getD 1
      qubitsRequired := opts.qubitsRequired.getD 0
      memoryRequired := opts.memoryRequired.getD 1024
      handedness := handednessForClass pc
      couplingStrength := m.config.couplingStrength
      createdAt := now
      startedAt := none
      completedAt := none
      executionTime := 0
      waitTime := 0 }
  { m with processes := setProcess m.processes p }

/-- `ResonantScheduler.calculateOrderParameter`: the Kuramoto aggregate
over non-completed tasks, `(0, 0)` on an empty active set. -/
noncomputable def calculateOrderParameterSched (procs : List ResonantProcess) : ℝ × ℝ :=
  let active := procs.filter (fun p => p.state ≠ ProcessState.completed)
  if active.length = 0 then (0, 0)
  else calculateOrderParameter (active.map (fun p => p.phase))

/-- `ResonantScheduler.updateDynamics`. -/
noncomputable def updateDynamics (cfg : SchedulerConfig) (dt : ℝ)
    (procs : List ResonantProcess) : List ResonantProcess :=
  let rp := calculateOrderParameterSched procs
  procs.map (fun p =>
    if p.state = ProcessState.completed then p
    else
      let kuramoto := p.couplingStrength * rp.1 * Real.sin (rp.2 - p.phase)
      let chiral : ℝ :=
        match p.handedness with
        | .left => cfg.chiralBias * Real.sin (2 * (rp.2 - p.phase))
        | .right => -cfg.chiralBias * Real.sin (2 * (rp.2 - p.phase))
        | .achiral => 0
      let dPhase := p.frequency + kuramoto + chiral
      let ph1 := jsMod (p.phase + dPhase * dt) (2 * Real.pi)
      let ph2 := if ph1 < 0 then ph1 + 2 * Real.pi else ph1
      let driving : ℝ := if p.state = ProcessState.running then 0.1 else 0
      let dAmplitude := -p.damping * p.amplitude + driving
      let amplitude1 := max 0.1 (min 2.0 (p.amplitude + dAmplitude * dt))
      let waitTime1 :=
        if p.state = ProcessState.pending ∨ p.state = ProcessState.ready ∨
            p.state = ProcessState.coherenceWait
        then p.waitTime + dt * 1000 else p.waitTime
      { p with phase := ph2, amplitude := amplitude1, waitTime := waitTime1 })

/-- `ResonantScheduler.calculateResonantPriorities`. -/
noncomputable def calculateResonantPriorities (now : ℝ)
    (procs : List ResonantProcess) : List ResonantProcess :=
  let rp := calculateOrderParameterSched procs
  procs.map (fun p =>
    if p.state = ProcessState.completed then p
    else
      let phaseDiff := |p.phase - rp.2|
      let coherenceBonus := Real.cos phaseDiff * 10
      let prio2 := p.priority + coherenceBonus
      let prio3 :=
        if p.handedness = Safety.Handedness.right ∧ 0.7 < rp.1 then prio2 + 15 else prio2
      let waitPenalty := min (p.waitTime / 1000) 20
      let prio4 := prio3 + waitPenalty
      let timeToDeadline := p.coherenceDeadline - now
      let prio5 :=
        if timeToDeadline < 10000 then prio4 + (10000 - timeToDeadline) / 500 else prio4
      let prio6 :=
        if p.processClass = ProcessClass.quantum ∧ 0 < p.qubitsRequired then prio5 + 5
        else prio5
      let prio7 :=
        if p.processClass = ProcessClass.consciousness then prio6 + rp.1 * 10 else prio6
      { p with resonantPriority := max 0 (min 100 prio7) })

/-- `ResonantScheduler.estimateCoherenceWindow`. -/
noncomputable def estimateCoherenceWindow (p : ResonantProcess) : ℝ :=
  match p.processClass with
  | .quantum => 1000 * 0.5
  | .consciousness => 1000 * 2
  | .emergence => 1000 * 1.5
  | _ => 1000

/-- `ResonantScheduler.getProcessesByState`. -/
noncomputable def getProcessesByState (st : ProcessState)
    (procs : List ResonantProcess) : List ResonantProcess :=
  procs.filter (fun p => p.state = st)

/-- Stable insertion of a process into a list sorted by descending
resonant priority; `sortByPriorityDesc` models the stable JS
`sort((a, b) => b.resonantPriority - a.resonantPriority)`. -/
noncomputable def insertByPriorityDesc (p : ResonantProcess) :
    List ResonantProcess → List ResonantProcess
  | [] => [p]
  | q :: t =>
    if q.resonantPriority ≤ p.resonantPriority then p :: q :: t
    else q :: insertByPriorityDesc p t

/-- See `insertByPriorityDesc`. -/
noncomputable def sortByPriorityDesc (l : List ResonantProcess) : List ResonantProcess :=
  l.foldr insertByPriorityDesc []

/-- `ResonantScheduler.makeDecisions`.  Returns the decision list and
the registry with the in-place `pending → ready` promotion applied.
Decisions are pushed in source order: coherence-wait wake-ups, then the
capped fill from ready+pending, then at most one preemption. -/
noncomputable def makeDecisions (m : SchedulerModel) :
    List SchedulingDecision × List ResonantProcess :=
  let procs := m.processes
  let psi := (calculateOrderParameterSched procs).2
  let ready := getProcessesByState .ready procs
  let pending := getProcessesByState .pending procs
  let running := getProcessesByState .running procs
  let coherenceWait := getProcessesByState .coherenceWait procs
  -- check coherence-waiting processes
  let cwDecisions : List SchedulingDecision := coherenceWait.filterMap (fun p =>
    let coherence := (Real.cos |p.phase - psi| + 1) / 2
    if p.coherenceRequired ≤ coherence then
      some { processId := p.id, action := .schedule,
             resonantPriority := p.resonantPriority,
             coherenceWindow := estimateCoherenceWindow p }
    else none)
  -- promote pending to ready (mutates the registry objects in the source)
  let procs1 := procs.map (fun p =>
    if p.state = ProcessState.pending then { p with state := ProcessState.ready } else p)
  -- schedule ready processes into the free slots
  let availableSlots : ℤ := (m.config.maxRunning : ℤ) - running.length
  let fillDecisions : List SchedulingDecision :=
    if 0 < availableSlots then
      let sortedReady := sortByPriorityDesc (ready ++ pending)
      (sortedReady.take (min availableSlots.toNat sortedReady.length)).map (fun p =>
        let coherence := (Real.cos |p.phase - psi| + 1) / 2
        if p.coherenceRequired ≤ coherence then
          { processId := p.id, action := .schedule,
            resonantPriority := p.resonantPriority,
            coherenceWindow := estimateCoherenceWindow p }
        else
          { processId := p.id, action := .wait,
            resonantPriority := p.resonantPriority, coherenceWindow := 0 })
    else []
  -- preemption of the lowest-priority running process
  let preemptDecisions : List SchedulingDecision :=
    if ready.length ≠ 0 ∧ m.config.maxRunning ≤ running.length then
      match running, ready with
      | r0 :: rt, q0 :: qt =>
        let lowestRunning :=
          rt.foldl (fun a b => if a.resonantPriority < b.resonantPriority then a else b) r0
        let highestReady :=
          qt.foldl (fun a b => if b.resonantPriority < a.resonantPriority then a else b) q0
        if 20 < highestReady.resonantPriority - lowestRunning.resonantPriority then
          [{ processId := lowestRunning.id, action := .preempt,
             resonantPriority := lowestRunning.resonantPriority, coherenceWindow := 0 }]
        else []
      | _, _ => []  -- empty `running` here would throw in JS (reduce of empty array)
    else []
  (cwDecisions ++ fillDecisions ++ preemptDecisions, procs1)

/-- `ResonantScheduler.executeDecision` (lookup by unique id). -/
noncomputable def executeDecision (now : ℝ) (procs : List ResonantProcess)
    (d : SchedulingDecision) : List ResonantProcess :=
  procs.map (fun p =>
    if p.id ≠ d.processId then p
    else
      match d.action with
      | .schedule =>
        if p.state ≠ ProcessState.running then
          { p with state := ProcessState.running, startedAt := some now }
        else p
      | .preempt =>
        if p.state = ProcessState.running then { p with state := ProcessState.ready } else p
      | .wait => { p with state := ProcessState.coherenceWait }
      | .boost => { p with couplingStrength := p.couplingStrength * 1.1 }
      | .damp => { p with damping := p.damping * 1.1 })

/-- `ResonantScheduler.schedule`: one full scheduling cycle at wall-clock
time `now`. -/
noncomputable def schedule (now : ℝ) (m : SchedulerModel) :
    List SchedulingDecision × SchedulerModel :=
  let dt := (now - m.lastScheduleTime) / 1000
  let procs1 := updateDynamics m.config dt m.processes
  let procs2 := calculateResonantPriorities now procs1
  let m1 := { m with processes := procs2, lastScheduleTime := now }
  let dm := makeDecisions m1
  let procs3 := dm.1.foldl (executeDecision now) dm.2
  (dm.1, { m1 with processes := procs3, tick := m1.tick + 1 })

/-- `ResonantScheduler.complete`. -/
noncomputable def complete (now : ℝ) (id : String) (m : SchedulerModel) : SchedulerModel :=
  { m with processes := m.processes.map (fun p =>
      if p.id = id then
        let p1 := { p with state := ProcessState.completed, completedAt := some now }
        match p1.startedAt with
        | some t => { p1 with executionTime := now - t }
        | none => p1
      else p) }

/-- `ResonantScheduler.block`. -/
noncomputable def block (id : String) (m : SchedulerModel) : SchedulerModel :=
  { m with processes := m.processes.map (fun p =>
      if p.id = id then { p with state := ProcessState.blocked } else p) }

/-- `ResonantScheduler.unblock`. -/
noncomputable def unblock (id : String) (m : SchedulerModel) : SchedulerModel :=
  { m with processes := m.processes.map (fun p =>
      if p.id = id ∧ p.state = ProcessState.blocked then
        { p with state := ProcessState.ready } else p) }

/-- `ResonantScheduler.remove`. -/
noncomputable def remove (id : String) (m : SchedulerModel) : SchedulerModel :=
  { m with processes := m.processes.filter (fun p => p.id ≠ id) }

/-- `SchedulerState` returned by `getState`. -/
structure SchedulerState where
  orderParameter : ℝ
  meanPhase : ℝ
  systemCoherence : ℝ
  totalEnergy : ℝ
  processCount : ℕ
  runningCount : ℕ
  quantumUtilization : ℝ
  emergenceSignature : ℝ

/-- `ResonantScheduler.getState`. -/
noncomputable def getState (m : SchedulerModel) : SchedulerState :=
  let rp := calculateOrderParameterSched m.processes
  let allProcesses := m.processes
  let active := allProcesses.filter (fun p => p.state ≠ ProcessState.completed)
  let running := allProcesses.filter (fun p => p.state = ProcessState.running)
  let totalEnergy := (active.map (fun p => p.amplitude)).sum
  let coherenceSum := (active.map (fun p => (Real.cos |p.phase - rp.2| + 1) / 2)).sum
  let systemCoherence := if 0 < active.length then coherenceSum / (active.length : ℝ) else 0
  let quantumProcesses := running.filter (fun p => 0 < p.qubitsRequired)
  let totalQubits := (quantumProcesses.map (fun p => p.qubitsRequired)).sum
  { orderParameter := rp.1
    meanPhase := rp.2
    systemCoherence := systemCoherence
    totalEnergy := totalEnergy
    processCount := allProcesses.length
    runningCount := running.length
    quantumUtilization := totalQubits / 100
    emergenceSignature := rp.1 * systemCoherence * Real.logb 2 ((active.length : ℝ) + 1) }

/-- Number of processes currently in state `running`. -/
noncomputable def countRunning (m : SchedulerModel) : ℕ :=
  (m.processes.filter (fun p => p.state = ProcessState.running)).length

end Sched

-- ============================================
-- SAMPLE REGISTRIES (concrete inputs for witnesses
-- and counterexamples)
-- ============================================

/-- A sample Queen configuration. -/
noncomputable def sampleQueenConfig : Queen.QueenConfig :=
  { baseCoupling := 1.116, adaptiveRate := 0.01, chiralEta := 0.3,
    targetCoherence := 0.85, phiThreshold := 3, syncInterval := 10 }

/-- A sample agent record under id "a" with non-default values. -/
noncomputable def agentA : Queen.SubsystemState :=
  { id := "a", type := .chiral, phase := 1, frequency := 2, coherence := 0.9,
    energy := 3, handedness := .right, lastUpdate := 5 }

/-- A one-agent Queen registry holding `agentA`. -/
noncomputable def queenWithA : Queen.QueenModel :=
  { subsystems := [agentA], queenState := Queen.initQueenState sampleQueenConfig,
    config := sampleQueenConfig, tick := 0, history := [] }

/-- A sample scheduler configuration with the source defaults
(`maxRunning = 4`). -/
noncomputable def sampleSchedConfig : Sched.SchedulerConfig :=
  { baseFrequency := 1, baseDamping := 1, couplingStrength := 0.62,
    chiralBias := 0.3, coherenceThreshold := 0.4, maxRunning := 4, timeSlice := 10 }

/-- A sample running task record under id "p" with accumulated timing. -/
noncomputable def oldProcessP : Sched.ResonantProcess :=
  { id := "p", name := "old", processClass := .quantum,
    state := Sched.ProcessState.running, phase := 1, frequency := 1,
    amplitude := 1, damping := 1, priority := 10, resonantPriority := 20,
    coherenceRequired := 0.3, coherenceDeadline := 100, cpuRequired := 1,
    qubitsRequired := 0, memoryRequired := 1024, handedness := .right,
    couplingStrength := 0.62, createdAt := 0, startedAt := some 1,
    completedAt := none, executionTime := 7, waitTime := 9 }

/-- A one-task scheduler registry holding `oldProcessP`. -/
noncomputable def schedWithP : Sched.SchedulerModel :=
  { processes := [oldProcessP], config := sampleSchedConfig, tick := 0,
    lastScheduleTime := 0 }

/-- A Queen configuration with `syncInterval = 1000` (so `dt = 1`),
coupling 2 and chiral bias 1. -/
noncomputable def c9Config : Queen.QueenConfig :=
  { baseCoupling := 2, adaptiveRate := 0.01, chiralEta := 1,
    targetCoherence := 0.85, phiThreshold := 3, syncInterval := 1000 }

/-- A left-handed (safety) agent at phase `π` with zero frequency. -/
noncomputable def c9AgentLeft : Queen.SubsystemState :=
  { id := "s", type := .safety, phase := Real.pi, frequency := 0,
    coherence := 0.5, energy := 1, handedness := .left, lastUpdate := 0 }

/-- A right-handed (chiral) agent at phase 0 with zero frequency. -/
noncomputable def c9AgentRight : Queen.SubsystemState :=
  { id := "c", type := .chiral, phase := 0, frequency := 0,
    coherence := 0.5, energy := 1, handedness := .right, lastUpdate := 0 }

/-- A two-agent synchronizer whose mean field sits at `ψ = 0` opposite
the left-handed agent. -/
noncomputable def c9Queen : Queen.QueenModel :=
  { subsystems := [c9AgentLeft, c9AgentRight],
    queenState := Queen.initQueenState c9Config, config := c9Config,
    tick := 0, history := [] }

/-- A scheduler configuration with `maxRunning = 1` (caller-supplied,
all other fields at their source defaults). -/
noncomputable def c2Config : Sched.SchedulerConfig :=
  { baseFrequency := 1, baseDamping := 1, couplingStrength := 0.62,
    chiralBias := 0.3, coherenceThreshold := 0.4, maxRunning := 1, timeSlice := 10 }

/-- A freshly constructed scheduler (`Date.now() = 0`). -/
noncomputable def c2Empty : Sched.SchedulerModel :=
  { processes := [], config := c2Config, tick := 0, lastScheduleTime := 0 }

/-- Fully explicit submit options with the given priority and coherence
requirement, deadline far in the future. -/
noncomputable def c2Opts (prio cohReq : ℝ) : Sched.SubmitOptions :=
  { priority := some prio, coherenceRequired := some cohReq,
    coherenceDeadline := some 1000000, cpuRequired := some 1,
    qubitsRequired := some 0, memoryRequired := some 1024 }

/-- Task "a": classical, phase 0, priority 50, no coherence requirement. -/
noncomputable def c2A0 : Sched.ResonantProcess :=
  { id := "a", name := "a", processClass := .classical, state := .pending,
    phase := 0, frequency := 1, amplitude := 1, damping := 0.5, priority := 50,
    resonantPriority := 0, coherenceRequired := 0, coherenceDeadline := 1000000,
    cpuRequired := 1, qubitsRequired := 0, memoryRequired := 1024,
    handedness := .achiral, couplingStrength := 0.62, createdAt := 0,
    startedAt := none, completedAt := none, executionTime := 0, waitTime := 0 }

/-- Task "b": classical, phase `π/2`, top priority 99, coherence
requirement 0.9. -/
noncomputable def c2B0 : Sched.ResonantProcess :=
  { c2A0 with
      id := "b", name := "b", phase := Real.pi / 2, priority := 99,
      coherenceRequired := 0.9 }

/-- Task "c": classical, phase `π/2`, priority 50. -/
noncomputable def c2C0 : Sched.ResonantProcess :=
  { c2A0 with id := "c", name := "c", phase := Real.pi / 2 }

/-- Task "a" after the first cycle: promoted to ready, resonant
priority `50 + 5√2`. -/
noncomputable def c2A1 : Sched.ResonantProcess :=
  { c2A0 with state := .ready, resonantPriority := 50 + 5 * Real.sqrt 2 }

/-- Task "b" after the first cycle: parked in coherence_wait with
resonant priority clamped to 100. -/
noncomputable def c2B1 : Sched.ResonantProcess :=
  { c2B0 with state := .coherenceWait, resonantPriority := 100 }

/-- Task "a" after the second cycle: running. -/
noncomputable def c2A2 : Sched.ResonantProcess :=
  { c2A1 with state := .running, startedAt := some 0 }

/-- Task "a" after the first cycle's priority pass (still pending). -/
noncomputable def c2A1p : Sched.ResonantProcess :=
  { c2A0 with resonantPriority := 50 + 5 * Real.sqrt 2 }

/-- Task "b" after the first cycle's priority pass (still pending). -/
noncomputable def c2B1p : Sched.ResonantProcess :=
  { c2B0 with resonantPriority := 100 }

/-- Task "b" promoted to ready inside the first cycle's decision pass. -/
noncomputable def c2B1r : Sched.ResonantProcess :=
  { c2B0 with state := Sched.ProcessState.ready, resonantPriority := 100 }

/-- Task "a" after the third cycle's priority pass (running). -/
noncomputable def c2A3 : Sched.ResonantProcess :=
  { c2A2 with resonantPriority := 50 + 2 * Real.sqrt 5 }

/-- Task "c" after the third cycle's priority pass (still pending). -/
noncomputable def c2C1p : Sched.ResonantProcess :=
  { c2C0 with resonantPriority := 50 + 4 * Real.sqrt 5 }

/-- Task "b" after the third cycle: woken from coherence_wait into
running while "a" still runs. -/
noncomputable def c2B2 : Sched.ResonantProcess :=
  { c2B1 with state := Sched.ProcessState.running, startedAt := some 0 }

/-- Task "c" promoted to ready in the third cycle's decision pass. -/
noncomputable def c2C1 : Sched.ResonantProcess :=
  { c2C0 with
      state := Sched.ProcessState.ready,
      resonantPriority := 50 + 4 * Real.sqrt 5 }

-- ============================================
-- THEOREMS
-- ============================================

namespace Safety

/-- `stepEnergy` escalates to critical/normalize when energy exceeds the bound. -/
theorem stepEnergy_of_energy_gt (cfg : SafetyConfig) (st : SystemState)
    (vas : List Violation × SafetyAction × StatusLevel)
    (h : cfg.energyMax < st.energy) :
    stepEnergy cfg st vas = (vas.1 ++ [.energyAboveMax], .normalize, .critical) := by
  simp [stepEnergy, h]

/-- `stepDivergence` keeps a critical status and a non-nominal action. -/
theorem stepDivergence_preserves (cfg : SafetyConfig) (dr : ℚ)
    (vas : List Violation × SafetyAction × StatusLevel)
    (hs : vas.2.2 = .critical) (ha : vas.2.1 ≠ .nominal) :
    (stepDivergence cfg dr vas).2.2 = .critical ∧
    (stepDivergence cfg dr vas).2.1 ≠ .nominal := by
  unfold stepDivergence
  split_ifs with h <;> simp_all

/-- `stepChiral` never alters action or status once an action is set. -/
theorem stepChiral_preserves (st : SystemState)
    (vas : List Violation × SafetyAction × StatusLevel)
    (ha : vas.2.1 ≠ .nominal) :
    (stepChiral st vas).2.1 = vas.2.1 ∧ (stepChiral st vas).2.2 = vas.2.2 := by
  unfold stepChiral
  cases st.chiral <;> simp_all

/-- When energy exceeds the bound, the cascade ends critical with a
non-nominal action, whatever the other metrics did before. -/
theorem violationCascade_energy_critical (cfg : SafetyConfig) (dr : ℚ) (st : SystemState)
    (h : cfg.energyMax < st.energy) :
    (violationCascade cfg dr st).2.2 = .critical ∧
    (violationCascade cfg dr st).2.1 ≠ .nominal := by
  unfold violationCascade
  rw [stepEnergy_of_energy_gt cfg st _ h]
  have hdiv := stepDivergence_preserves cfg dr
    (((stepCoherence cfg st (stepEmergence cfg st)).1 ++ [.energyAboveMax], .normalize, .critical))
    (by simp) (by simp)
  have hchir := stepChiral_preserves st
    (stepDivergence cfg dr
      ((stepCoherence cfg st (stepEmergence cfg st)).1 ++ [.energyAboveMax], .normalize, .critical))
    hdiv.2
  exact ⟨hchir.2.trans hdiv.1, hchir.1.symm ▸ hdiv.2⟩

/-- `checkCore` under an exceeded energy bound stays critical. -/
theorem checkCore_energy_critical (cfg : SafetyConfig) (dr : ℚ) (st : SystemState)
    (h : cfg.energyMax < st.energy) :
    (checkCore cfg dr st).2.2 = .critical := by
  unfold checkCore
  have := violationCascade_energy_critical cfg dr st h
  dsimp only
  split_ifs <;> simp_all

/-- `checkCore` with three or more recorded violations emits the
emergency-halt override. -/
theorem checkCore_emergency (cfg : SafetyConfig) (dr : ℚ) (st : SystemState)
    (h : 3 ≤ (checkCore cfg dr st).1.length) :
    (checkCore cfg dr st).2.1 = .emergencyHalt ∧
    (checkCore cfg dr st).2.2 = .critical := by
  revert h
  unfold checkCore
  dsimp only
  split_ifs with h3 <;> intro h <;> simp_all

/-- Claim C1: for every call to `SafetyEnvelope.check`, if the supplied
energy exceeds the configured `energyMax` then the returned status is
critical regardless of all other metrics and history; and if three or
more violations have been recorded during the call then the returned
action is `emergency-halt` and the status is critical, overriding every
other rule. -/
theorem claim_C1 (cfg : SafetyConfig) (tpf : ℚ) (hist : List ℚ) (st : SystemState) :
    (cfg.energyMax < st.energy → ((check cfg tpf hist st).1).status = .critical) ∧
    (3 ≤ ((check cfg tpf hist st).1).violations.length →
      ((check cfg tpf hist st).1).action = .emergencyHalt ∧
      ((check cfg tpf hist st).1).status = .critical) := by
  constructor
  · intro h
    exact checkCore_energy_critical cfg _ st h
  · intro h
    exact checkCore_emergency cfg _ st h

/-- Witness for C1 at a concrete call: default configuration, empty
history, energy 200 > 100 and three violated bounds. -/
theorem claim_C1_witness :
    ((({} : SafetyConfig).energyMax < (200 : ℚ) ∧
      ((check {} 0 [] { coherence := 0, emergenceNorm := 3, energy := 200 }).1).status =
        .critical) ∧
     (3 ≤ ((check {} 0 []
        { coherence := 0, emergenceNorm := 3, energy := 200 }).1).violations.length ∧
      ((check {} 0 [] { coherence := 0, emergenceNorm := 3, energy := 200 }).1).action =
        .emergencyHalt ∧
      ((check {} 0 [] { coherence := 0, emergenceNorm := 3, energy := 200 }).1).status =
        .critical)) := by
  have hlen : 3 ≤ ((check {} 0 []
      { coherence := 0, emergenceNorm := 3, energy := 200 }).1).violations.length := by
    norm_num [check, checkCore, violationCascade, stepEmergence, stepCoherence,
      stepEnergy, stepDivergence, stepChiral, calculateDivergenceRate, sumAbsDiffs,
      maxHistoryLength]
  have hhalt := (claim_C1 {} 0 [] { coherence := 0, emergenceNorm := 3, energy := 200 }).2 hlen
  exact ⟨⟨by norm_num,
          (claim_C1 {} 0 [] { coherence := 0, emergenceNorm := 3, energy := 200 }).1
            (by norm_num)⟩,
         ⟨hlen, hhalt.1, hhalt.2⟩⟩

/-- `sumAbsDiffs` as a fold over adjacent pairs. -/
theorem sumAbsDiffs_eq_zipWith (l : List ℚ) :
    sumAbsDiffs l = (List.zipWith (fun a b => |b - a|) l l.tail).sum := by
  induction l with
  | nil => rfl
  | cons a t ih =>
    cases t with
    | nil => rfl
    | cons b t2 => simpa [sumAbsDiffs] using ih

/-- Closed form of `calculateDivergenceRate`: the sum of absolute
successive differences over the 10-sample window divided by the window
length. -/
theorem calculateDivergenceRate_eq (h : List ℚ) :
    calculateDivergenceRate h =
      (if h.length < 2 then 0
       else
         let w := h.drop (h.length - 10)
         (List.zipWith (fun a b => |b - a|) w w.tail).sum / (w.length : ℚ)) := by
  unfold calculateDivergenceRate
  split_ifs with hl
  · rfl
  · simp only [sumAbsDiffs_eq_zipWith]

/-- Counterexample to C7 as stated: after pushing energy 2 onto history
`[0]`, the window is `[0, 2]`; `check` reports divergence rate `1`
(sum divided by the 2-element window length), while the mean of the
absolute successive differences is `2`. -/
theorem claim_C7_counterexample :
    ((check {} 0 [0] { coherence := 0.5, emergenceNorm := 0.5, energy := 2 }).1).metrics.divergenceRate = 1 ∧
    specMeanAbsSuccDiff [0, 2] = 2 ∧ (1 : ℚ) ≠ 2 := by
  refine ⟨?_, ?_, by norm_num⟩
  · show calculateDivergenceRate [0, 2] = 1
    norm_num [calculateDivergenceRate, sumAbsDiffs]
  · norm_num [specMeanAbsSuccDiff, sumAbsDiffs]

/-- Amended C7: the divergence rate returned by `check` equals the sum
of the absolute successive differences over the last (at most) 10
recorded samples divided by the number of samples in that window (not
the number of differences); it is 0 when fewer than 2 samples exist. -/
theorem claim_C7_amended (cfg : SafetyConfig) (tpf : ℚ) (hist : List ℚ) (st : SystemState) :
    ((check cfg tpf hist st).1).metrics.divergenceRate =
      (let h2 := (check cfg tpf hist st).2
       if h2.length < 2 then 0
       else
         let w := h2.drop (h2.length - 10)
         (List.zipWith (fun a b => |b - a|) w w.tail).sum / (w.length : ℚ)) := by
  have h1 : ((check cfg tpf hist st).1).metrics.divergenceRate =
      calculateDivergenceRate ((check cfg tpf hist st).2) := by
    simp only [check]
  rw [h1, calculateDivergenceRate_eq]

end Safety

namespace Chiral

/-- Reading index `i < n` out of a vector built over `List.range n`. -/
theorem getD_map_range {n : ℕ} (g : ℕ → ℝ) (i : ℕ) (hi : i < n) :
    ((List.range n).map g).getD i 0 = g i := by
  rw [List.getD_eq_getElem?_getD, List.getElem?_map, List.getElem?_range hi]
  rfl

/-- Claim C5: with edge protection disabled, the integrator returns
exactly `velocity'[i] = velocity[i] + (laplacian - sin state[i]
- eta*gradient - gamma*velocity[i])*dt` and
`state'[i] = state[i] + velocity'[i]*dt`, with circular neighbour
indexing, the Laplacian as second circular difference and the gradient
as the halved forward-minus-backward difference. -/
theorem claim_C5 (cfg : ChiralConfig) (tpf : ℝ) (state velocity : List ℝ)
    (dt : ℝ) (i : ℕ) (hprot : cfg.topologicalProtection = false)
    (hlen : state.length = velocity.length) (hdt : 0 < dt)
    (hi : i < state.length) :
    (let n := state.length
     let prev := state.getD ((i + n - 1) % n) 0
     let next := state.getD ((i + 1) % n) 0
     let laplacian := prev - 2 * state.getD i 0 + next
     let gradient := (next - prev) / 2
     let v1 := velocity.getD i 0 +
       (laplacian - Real.sin (state.getD i 0) - cfg.eta * gradient -
         cfg.gamma * velocity.getD i 0) * dt
     ((applyChiralDynamics cfg tpf state velocity dt).2).getD i 0 = v1 ∧
     ((applyChiralDynamics cfg tpf state velocity dt).1).getD i 0 =
       state.getD i 0 + v1 * dt) := by
  unfold applyChiralDynamics
  rw [hprot]
  simp only [Bool.false_eq_true, if_false]
  constructor
  · rw [getD_map_range _ i hi]
  · rw [getD_map_range _ i hi, getD_map_range _ i hi]

/-- Witness for C5 at a concrete input: a 3-cell zero field, `dt = 1`,
index 0, protection disabled. -/
theorem claim_C5_witness :
    (({ eta := 0, gamma := 0, preferredHandedness := .right,
        topologicalProtection := false, enableCISS := true } :
        ChiralConfig).topologicalProtection = false) ∧
    ([(0 : ℝ), 0, 0].length = [(0 : ℝ), 0, 0].length) ∧ (0 : ℝ) < 1 ∧
    0 < [(0 : ℝ), 0, 0].length ∧
    (let state := [(0 : ℝ), 0, 0]
     let velocity := [(0 : ℝ), 0, 0]
     let cfg : ChiralConfig :=
       { eta := 0, gamma := 0, preferredHandedness := .right,
         topologicalProtection := false, enableCISS := true }
     let n := state.length
     let prev := state.getD ((0 + n - 1) % n) 0
     let next := state.getD ((0 + 1) % n) 0
     let laplacian := prev - 2 * state.getD 0 0 + next
     let gradient := (next - prev) / 2
     let v1 := velocity.getD 0 0 +
       (laplacian - Real.sin (state.getD 0 0) - cfg.eta * gradient -
         cfg.gamma * velocity.getD 0 0) * 1
     ((applyChiralDynamics cfg 0 state velocity 1).2).getD 0 0 = v1 ∧
     ((applyChiralDynamics cfg 0 state velocity 1).1).getD 0 0 =
       state.getD 0 0 + v1 * 1) :=
  ⟨rfl, rfl, one_pos, by norm_num,
   claim_C5 _ 0 [0, 0, 0] [0, 0, 0] 1 0 rfl rfl one_pos (by norm_num)⟩

/-- Claim C6: the winding number is invariant under adding the same real
constant to every element of the state vector, and it equals the
nearest-integer rounding of the summed wrapped circular phase
differences divided by `2π` (an integer by construction). -/
theorem claim_C6 (state : List ℝ) (c : ℝ) :
    calculateWindingNumber (state.map (fun x => x + c)) = calculateWindingNumber state ∧
    calculateWindingNumber state = round (totalPhaseChange state / (2 * Real.pi)) := by
  refine ⟨?_, rfl⟩
  unfold calculateWindingNumber
  congr 2
  unfold totalPhaseChange
  rw [List.length_map]
  rcases Nat.eq_zero_or_pos state.length with h0 | hpos
  · simp [h0]
  · apply congrArg List.sum
    apply List.map_congr_left
    intro i hi
    have hi1 : i < state.length := List.mem_range.mp hi
    have hi2 : (i + 1) % state.length < state.length := Nat.mod_lt _ hpos
    have hmap : ∀ (j : ℕ), j < state.length →
        (state.map (fun x => x + c)).getD j 0 = state.getD j 0 + c := by
      intro j hj
      rw [List.getD_eq_getElem?_getD, List.getD_eq_getElem?_getD, List.getElem?_map,
        List.getElem?_eq_getElem hj]
      rfl
    rw [hmap _ hi2, hmap _ hi1]
    congr 1
    ring

end Chiral

-- Order-parameter lemmas (for claims C3, C4, C8)

/-- The squared modulus of a sum of unit vectors is at most `n²`. -/
theorem cos_sin_sum_sq_le (l : List ℝ) :
    ((l.map Real.cos).sum) ^ 2 + ((l.map Real.sin).sum) ^ 2 ≤ (l.length : ℝ) ^ 2 := by
  induction l with
  | nil => simp
  | cons a t ih =>
    simp only [List.map_cons, List.sum_cons, List.length_cons]
    push_cast
    set C := (t.map Real.cos).sum with hC
    set S := (t.map Real.sin).sum with hS
    set n : ℝ := (t.length : ℝ) with hn
    have hn0 : 0 ≤ n := by positivity
    have h1 : (Real.cos a * C + Real.sin a * S) ^ 2 ≤ C ^ 2 + S ^ 2 := by
      nlinarith [sq_nonneg (Real.cos a * S - Real.sin a * C), Real.sin_sq_add_cos_sq a]
    have h2 : Real.cos a * C + Real.sin a * S ≤ n := by
      nlinarith [sq_nonneg (Real.cos a * C + Real.sin a * S + n)]
    nlinarith [Real.sin_sq_add_cos_sq a]

/-- Sum of a function mapped over a list of identical elements. -/
theorem sum_map_of_all_eq (l : List ℝ) (f : ℝ → ℝ) (b : ℝ)
    (h : ∀ x ∈ l, x = b) : (l.map f).sum = (l.length : ℝ) * f b := by
  induction l with
  | nil => simp
  | cons a t ih =>
    simp only [List.map_cons, List.sum_cons, List.length_cons]
    rw [h a (List.mem_cons_self a t), ih (fun x hx => h x (List.mem_cons_of_mem a hx))]
    push_cast
    ring

/-- Equality case of `cos_sin_sum_sq_le`: for phases in `[0, 2π)`, the
sum of unit vectors has modulus `n` only when all phases coincide. -/
theorem all_eq_of_cos_sin_sum_sq_eq (l : List ℝ)
    (hr : ∀ x ∈ l, 0 ≤ x ∧ x < 2 * Real.pi)
    (h : ((l.map Real.cos).sum) ^ 2 + ((l.map Real.sin).sum) ^ 2 = (l.length : ℝ) ^ 2) :
    ∀ a ∈ l, ∀ b ∈ l, a = b := by
  induction l with
  | nil => simp
  | cons a t ih =>
    rcases eq_or_ne t [] with rfl | hne
    · intro x hx y hy
      simp only [List.mem_singleton] at hx hy
      rw [hx, hy]
    · simp only [List.map_cons, List.sum_cons, List.length_cons] at h
      push_cast at h
      set C := (t.map Real.cos).sum with hCdef
      set S := (t.map Real.sin).sum with hSdef
      set n : ℝ := (t.length : ℝ) with hndef
      have hb := cos_sin_sum_sq_le t
      rw [← hCdef, ← hSdef, ← hndef] at hb
      have hn0 : 0 ≤ n := by positivity
      have hT2 : (Real.cos a * C + Real.sin a * S) ^ 2 ≤ C ^ 2 + S ^ 2 := by
        nlinarith [sq_nonneg (Real.cos a * S - Real.sin a * C), Real.sin_sq_add_cos_sq a]
      have hT : Real.cos a * C + Real.sin a * S ≤ n := by
        nlinarith [sq_nonneg (Real.cos a * C + Real.sin a * S + n)]
      have hexp : C ^ 2 + S ^ 2 + 2 * (Real.cos a * C + Real.sin a * S) + 1 =
          n ^ 2 + 2 * n + 1 := by
        nlinarith [Real.sin_sq_add_cos_sq a]
      have hCS : C ^ 2 + S ^ 2 = n ^ 2 := by linarith
      have hTn : Real.cos a * C + Real.sin a * S = n := by linarith
      obtain ⟨b, hbmem⟩ := List.exists_mem_of_ne_nil t hne
      have hall_t : ∀ x ∈ t, ∀ y ∈ t, x = y :=
        ih (fun x hx => hr x (List.mem_cons_of_mem a hx)) hCS
      have ht_eq_b : ∀ x ∈ t, x = b := fun x hx => hall_t x hx b hbmem
      have hCb : C = n * Real.cos b := sum_map_of_all_eq t Real.cos b ht_eq_b
      have hSb : S = n * Real.sin b := sum_map_of_all_eq t Real.sin b ht_eq_b
      have hnpos : 0 < n := by
        rw [hndef]
        exact_mod_cast List.length_pos.mpr hne
      have hcossum : Real.cos a * Real.cos b + Real.sin a * Real.sin b = 1 := by
        have hmul : n * (Real.cos a * Real.cos b + Real.sin a * Real.sin b) = n * 1 := by
          rw [hCb, hSb] at hTn
          ring_nf
          ring_nf at hTn
          linarith
        exact mul_left_cancel₀ hnpos.ne' hmul
      have hcos1 : Real.cos (a - b) = 1 := by
        rw [Real.cos_sub]
        linarith
      have hamem := hr a (List.mem_cons_self a t)
      have hbmem2 := hr b (List.mem_cons_of_mem a hbmem)
      have hab : a = b := by
        have hz : a - b = 0 := by
          have hlt1 : -(2 * Real.pi) < a - b := by linarith [hamem.1, hbmem2.2]
          have hlt2 : a - b < 2 * Real.pi := by linarith [hamem.2, hbmem2.1]
          exact (Real.cos_eq_one_iff_of_lt_of_lt hlt1 hlt2).mp hcos1
        linarith
      intro x hx y hy
      rcases List.mem_cons.mp hx with rfl | hx2 <;>
        rcases List.mem_cons.mp hy with rfl | hy2
      · rfl
      · exact hab.trans (ht_eq_b y hy2).symm
      · exact (ht_eq_b x hx2).trans hab.symm
      · exact hall_t x hx2 y hy2

/-- Claim C3: for every non-empty registry of phases in `[0, 2π)`, the
recomputed order parameter satisfies `r ∈ [0,1]` and `ψ ∈ (−π, π]`;
`r = 1` iff all phases are identical; and two oscillators at phases
`0` and `π` give `r = 0`. -/
theorem claim_C3 (phases : List ℝ) (hne : phases ≠ [])
    (hrange : ∀ θ ∈ phases, 0 ≤ θ ∧ θ < 2 * Real.pi) :
    0 ≤ (calculateOrderParameter phases).1 ∧
    (calculateOrderParameter phases).1 ≤ 1 ∧
    (calculateOrderParameter phases).2 ∈ Set.Ioc (-Real.pi) Real.pi ∧
    ((calculateOrderParameter phases).1 = 1 ↔ ∀ a ∈ phases, ∀ b ∈ phases, a = b) ∧
    (calculateOrderParameter [0, Real.pi]).1 = 0 := by
  have hnpos : 0 < (phases.length : ℝ) := by
    exact_mod_cast List.length_pos.mpr hne
  unfold calculateOrderParameter
  dsimp only
  set C := (phases.map Real.cos).sum with hCdef
  set S := (phases.map Real.sin).sum with hSdef
  set n : ℝ := (phases.length : ℝ) with hndef
  have hsum := cos_sin_sum_sq_le phases
  rw [← hCdef, ← hSdef, ← hndef] at hsum
  have hv : C / n * (C / n) + S / n * (S / n) = (C ^ 2 + S ^ 2) / n ^ 2 := by
    field_simp
    ring
  refine ⟨Real.sqrt_nonneg _, ?_, ?_, ?_, ?_⟩
  · rw [hv]
    rw [show (1 : ℝ) = Real.sqrt 1 from (Real.sqrt_one).symm]
    apply Real.sqrt_le_sqrt
    rw [div_le_one (by positivity)]
    exact hsum
  · exact Complex.arg_mem_Ioc _
  · constructor
    · intro h1
      apply all_eq_of_cos_sin_sum_sq_eq phases hrange
      have hv1 : C / n * (C / n) + S / n * (S / n) = 1 := Real.sqrt_eq_one.mp h1
      rw [hv] at hv1
      have h2 := (div_eq_one_iff_eq (by positivity : (n : ℝ) ^ 2 ≠ 0)).mp hv1
      rw [hCdef, hSdef, hndef] at h2
      exact h2
    · intro hall
      obtain ⟨p, hp⟩ := List.exists_mem_of_ne_nil phases hne
      have hallp : ∀ x ∈ phases, x = p := fun x hx => hall x hx p hp
      have hCp : C = n * Real.cos p := sum_map_of_all_eq phases Real.cos p hallp
      have hSp : S = n * Real.sin p := sum_map_of_all_eq phases Real.sin p hallp
      rw [hCp, hSp]
      have hcn : n * Real.cos p / n = Real.cos p := by
        field_simp
      have hsn : n * Real.sin p / n = Real.sin p := by
        field_simp
      rw [hcn, hsn]
      have : Real.cos p * Real.cos p + Real.sin p * Real.sin p = 1 := by
        nlinarith [Real.sin_sq_add_cos_sq p]
      rw [this, Real.sqrt_one]
  · simp [Real.cos_pi, Real.sin_pi]

/-- Witness for C3 at the concrete registry `[0, π]`. -/
theorem claim_C3_witness :
    ([(0 : ℝ), Real.pi] ≠ []) ∧
    (∀ θ ∈ [(0 : ℝ), Real.pi], 0 ≤ θ ∧ θ < 2 * Real.pi) ∧
    (0 ≤ (calculateOrderParameter [(0 : ℝ), Real.pi]).1 ∧
     (calculateOrderParameter [(0 : ℝ), Real.pi]).1 ≤ 1 ∧
     (calculateOrderParameter [(0 : ℝ), Real.pi]).2 ∈ Set.Ioc (-Real.pi) Real.pi ∧
     ((calculateOrderParameter [(0 : ℝ), Real.pi]).1 = 1 ↔
       ∀ a ∈ [(0 : ℝ), Real.pi], ∀ b ∈ [(0 : ℝ), Real.pi], a = b) ∧
     (calculateOrderParameter [0, Real.pi]).1 = 0) := by
  have hrange : ∀ θ ∈ [(0 : ℝ), Real.pi], 0 ≤ θ ∧ θ < 2 * Real.pi := by
    intro θ hθ
    simp only [List.mem_cons, List.mem_singleton, List.not_mem_nil, or_false] at hθ
    rcases hθ with rfl | rfl
    · exact ⟨le_refl 0, by positivity⟩
    · exact ⟨Real.pi_pos.le, by linarith [Real.pi_pos]⟩
  exact ⟨by simp, hrange, claim_C3 [0, Real.pi] (by simp) hrange⟩

/-- Order parameter of a registry whose phases all equal `θ`:
`r = 1` and `ψ` has the cosine/sine of `θ`. -/
theorem orderParameter_const (l : List ℝ) (θ : ℝ) (hne : l ≠ [])
    (hall : ∀ x ∈ l, x = θ) :
    (calculateOrderParameter l).1 = 1 ∧
    Real.cos ((calculateOrderParameter l).2) = Real.cos θ ∧
    Real.sin ((calculateOrderParameter l).2) = Real.sin θ := by
  have hnpos : 0 < (l.length : ℝ) := by
    exact_mod_cast List.length_pos.mpr hne
  unfold calculateOrderParameter
  dsimp only
  rw [sum_map_of_all_eq l Real.cos θ hall, sum_map_of_all_eq l Real.sin θ hall]
  have hc : (l.length : ℝ) * Real.cos θ / (l.length : ℝ) = Real.cos θ := by
    field_simp
  have hs : (l.length : ℝ) * Real.sin θ / (l.length : ℝ) = Real.sin θ := by
    field_simp
  rw [hc, hs]
  have h1 : Real.cos θ * Real.cos θ + Real.sin θ * Real.sin θ = 1 := by
    nlinarith [Real.sin_sq_add_cos_sq θ]
  have habs : Complex.abs ⟨Real.cos θ, Real.sin θ⟩ = 1 := by
    rw [Complex.abs_apply, Complex.normSq_mk, h1, Real.sqrt_one]
  have hz : (⟨Real.cos θ, Real.sin θ⟩ : ℂ) ≠ 0 := by
    intro h0
    rw [h0] at habs
    simp at habs
  refine ⟨by rw [h1, Real.sqrt_one], ?_, ?_⟩
  · unfold atan2
    rw [Complex.cos_arg hz, habs]
    simp
  · unfold atan2
    rw [Complex.sin_arg, habs]
    simp

/-- `List.mapIdx` with an index-independent body is a plain map. -/
theorem mapIdx_const_fun {α β : Type _} (g : α → β) (l : List α) :
    l.mapIdx (fun _ a => g a) = l.map g := by
  rw [List.mapIdx_eq_enum_map]
  rw [show Function.uncurry (fun (_ : ℕ) (a : α) => g a) = g ∘ Prod.snd from rfl]
  rw [← List.map_map, List.enum_map_snd]

namespace Queen

/-- A tick of the synchronizer with noise disabled maps a registry of
equal phases and equal frequencies to another registry of equal phases
and the same frequencies. -/
theorem step_const_preserved (boost now : ℝ) (m : QueenModel) (θ ω : ℝ)
    (hne : m.subsystems ≠ [])
    (hall : ∀ s ∈ m.subsystems, s.phase = θ ∧ s.frequency = ω) :
    (synchronizationStep boost (fun _ => 0) now m).subsystems ≠ [] ∧
    ∃ θ2, ∀ s2 ∈ (synchronizationStep boost (fun _ => 0) now m).subsystems,
      s2.phase = θ2 ∧ s2.frequency = ω := by
  have hlen : ¬(m.subsystems.length = 0) := fun h => hne (List.length_eq_zero.mp h)
  have hmapne : m.subsystems.map (fun s => s.phase) ≠ [] := by
    simpa using hne
  have hphases : ∀ x ∈ m.subsystems.map (fun s => s.phase), x = θ := by
    rintro x hx
    obtain ⟨s, hs, rfl⟩ := List.mem_map.mp hx
    exact (hall s hs).1
  obtain ⟨hr, hcosψ, hsinψ⟩ :=
    orderParameter_const (m.subsystems.map (fun s => s.phase)) θ hmapne hphases
  set rp := calculateOrderParameter (m.subsystems.map (fun s => s.phase)) with hrp
  have hsin0 : Real.sin (rp.2 - θ) = 0 := by
    rw [Real.sin_sub, hcosψ, hsinψ]
    ring
  have hsin20 : Real.sin (2 * (rp.2 - θ)) = 0 := by
    rw [Real.sin_two_mul, hsin0]
    ring
  set dt := m.config.syncInterval / 1000 with hdt
  set qs1 : QueenState :=
    { m.queenState with orderParameter := rp.1, meanPhase := rp.2 } with hqs1
  have hsubs : (synchronizationStep boost (fun _ => 0) now m).subsystems =
      m.subsystems.map (fun s =>
        let dPhase := calculatePhaseDerivative qs1 s rp.1 rp.2 0
        let p1 := jsMod (s.phase + dPhase * dt) (2 * Real.pi)
        let p2 := if p1 < 0 then p1 + 2 * Real.pi else p1
        let s1 := { s with phase := p2, lastUpdate := now }
        { s1 with coherence := calculateLocalCoherence boost s1 rp.1 rp.2 }) := by
    rw [synchronizationStep, if_neg hlen]
    exact mapIdx_const_fun _ _
  have hdP : ∀ s ∈ m.subsystems,
      calculatePhaseDerivative qs1 s rp.1 rp.2 0 = ω := by
    intro s hs
    obtain ⟨hsθ, hsω⟩ := hall s hs
    unfold calculatePhaseDerivative
    cases hh : s.handedness <;>
      simp [hh, hsθ, hsω, hr, hsin0, hsin20, hqs1]
  refine ⟨?_, if jsMod (θ + ω * dt) (2 * Real.pi) < 0 then
      jsMod (θ + ω * dt) (2 * Real.pi) + 2 * Real.pi
    else jsMod (θ + ω * dt) (2 * Real.pi), ?_⟩
  · rw [hsubs]
    simpa using hne
  · intro s2 hs2
    rw [hsubs] at hs2
    obtain ⟨s, hs, rfl⟩ := List.mem_map.mp hs2
    obtain ⟨hsθ, hsω⟩ := hall s hs
    dsimp only
    rw [hdP s hs, hsθ, hsω]
    exact ⟨rfl, rfl⟩

end Queen

/-- Claim C8: a synchronizer holding exactly two agents with identical
natural frequency and identical phase, with the noise term disabled,
recomputes order parameter `r` exactly 1 after every number of ticks. -/
theorem claim_C8 (boost now : ℝ) (m : Queen.QueenModel)
    (s1 s2 : Queen.SubsystemState) (hsub : m.subsystems = [s1, s2])
    (hph : s1.phase = s2.phase) (hfr : s1.frequency = s2.frequency) (k : ℕ) :
    (calculateOrderParameter
      (((Queen.synchronizationStep boost (fun _ => 0) now)^[k] m).subsystems.map
        (fun s => s.phase))).1 = 1 := by
  suffices h : ∀ j : ℕ,
      ((Queen.synchronizationStep boost (fun _ => 0) now)^[j] m).subsystems ≠ [] ∧
      ∃ θ ω, ∀ s ∈ ((Queen.synchronizationStep boost (fun _ => 0) now)^[j] m).subsystems,
        s.phase = θ ∧ s.frequency = ω by
    obtain ⟨hne, θ, ω, hall⟩ := h k
    have hmapne :
        (((Queen.synchronizationStep boost (fun _ => 0) now)^[k] m).subsystems.map
          (fun s => s.phase)) ≠ [] := by
      simpa using hne
    have hphases : ∀ x ∈
        (((Queen.synchronizationStep boost (fun _ => 0) now)^[k] m).subsystems.map
          (fun s => s.phase)), x = θ := by
      rintro x hx
      obtain ⟨s, hs, rfl⟩ := List.mem_map.mp hx
      exact (hall s hs).1
    exact (orderParameter_const _ θ hmapne hphases).1
  intro j
  induction j with
  | zero =>
    refine ⟨by rw [Function.iterate_zero_apply, hsub]; simp, s2.phase, s2.frequency, ?_⟩
    rw [Function.iterate_zero_apply, hsub]
    intro s hs
    rcases List.mem_cons.mp hs with rfl | hs2
    · exact ⟨hph, hfr⟩
    · rcases List.mem_singleton.mp hs2 with rfl
      exact ⟨rfl, rfl⟩
  | succ j ih =>
    obtain ⟨hne, θ, ω, hall⟩ := ih
    rw [Function.iterate_succ_apply']
    obtain ⟨hne2, θ2, hall2⟩ :=
      Queen.step_const_preserved boost now _ θ ω hne hall
    exact ⟨hne2, θ2, ω, hall2⟩

/-- Witness for C8: two achiral agents at phase 0 with frequency 1,
after 3 noise-free ticks. -/
theorem claim_C8_witness :
    (({ subsystems :=
          [{ id := "a", type := .resonance, phase := 0, frequency := 1, coherence := 0.5,
             energy := 1, handedness := .achiral, lastUpdate := 0 },
           { id := "b", type := .resonance, phase := 0, frequency := 1, coherence := 0.5,
             energy := 1, handedness := .achiral, lastUpdate := 0 }]
        queenState := Queen.initQueenState ⟨1.116, 0.01, 0.3, 0.85, 3, 10⟩
        config := ⟨1.116, 0.01, 0.3, 0.85, 3, 10⟩
        tick := 0
        history := [] } : Queen.QueenModel).subsystems =
      [{ id := "a", type := .resonance, phase := 0, frequency := 1, coherence := 0.5,
         energy := 1, handedness := .achiral, lastUpdate := 0 },
       { id := "b", type := .resonance, phase := 0, frequency := 1, coherence := 0.5,
         energy := 1, handedness := .achiral, lastUpdate := 0 }]) ∧
    ((0 : ℝ) = 0) ∧ ((1 : ℝ) = 1) ∧
    (calculateOrderParameter
      (((Queen.synchronizationStep 1.2 (fun _ => 0) 0)^[3]
        ({ subsystems :=
             [{ id := "a", type := .resonance, phase := 0, frequency := 1, coherence := 0.5,
                energy := 1, handedness := .achiral, lastUpdate := 0 },
              { id := "b", type := .resonance, phase := 0, frequency := 1, coherence := 0.5,
                energy := 1, handedness := .achiral, lastUpdate := 0 }]
           queenState := Queen.initQueenState ⟨1.116, 0.01, 0.3, 0.85, 3, 10⟩
           config := ⟨1.116, 0.01, 0.3, 0.85, 3, 10⟩
           tick := 0
           history := [] } : Queen.QueenModel)).subsystems.map (fun s => s.phase))).1 = 1 :=
  ⟨rfl, rfl, rfl,
   claim_C8 1.2 0 _
     { id := "a", type := .resonance, phase := 0, frequency := 1, coherence := 0.5,
       energy := 1, handedness := .achiral, lastUpdate := 0 }
     { id := "b", type := .resonance, phase := 0, frequency := 1, coherence := 0.5,
       energy := 1, handedness := .achiral, lastUpdate := 0 }
     rfl rfl rfl 3⟩

/-- The scheduler's Kuramoto aggregate returns the `(0, 0)` default when
no non-completed task exists. -/
theorem orderParameterSched_all_completed (procs : List Sched.ResonantProcess)
    (h : ∀ p ∈ procs, p.state = Sched.ProcessState.completed) :
    Sched.calculateOrderParameterSched procs = (0, 0) := by
  have hf : procs.filter (fun p => p.state ≠ Sched.ProcessState.completed) = [] := by
    rw [List.filter_eq_nil_iff]
    intro p hp
    simp [h p hp]
  unfold Sched.calculateOrderParameterSched
  rw [hf]
  simp

/-- Claim C4: operations on an empty registry (zero agents, or zero
non-completed tasks) raise no error and return the documented defaults:
order parameter 0, mean phase 0, coherence 0 (every model function below
is total; the Queen tick leaves an empty synchronizer unchanged, so a
fresh synchronizer keeps its all-zero defaults). -/
theorem claim_C4 :
    (∀ procs : List Sched.ResonantProcess,
      (∀ p ∈ procs, p.state = Sched.ProcessState.completed) →
      Sched.calculateOrderParameterSched procs = (0, 0)) ∧
    (∀ m : Sched.SchedulerModel,
      (∀ p ∈ m.processes, p.state = Sched.ProcessState.completed) →
      (Sched.getState m).orderParameter = 0 ∧ (Sched.getState m).meanPhase = 0 ∧
      (Sched.getState m).systemCoherence = 0 ∧ (Sched.getState m).totalEnergy = 0 ∧
      (Sched.getState m).runningCount = 0) ∧
    (∀ (boost : ℝ) (noise : ℕ → ℝ) (now : ℝ) (m : Queen.QueenModel),
      m.subsystems = [] → Queen.synchronizationStep boost noise now m = m) ∧
    (∀ cfg : Queen.QueenConfig,
      (Queen.initQueenState cfg).orderParameter = 0 ∧
      (Queen.initQueenState cfg).meanPhase = 0 ∧
      (Queen.initQueenState cfg).coherenceLevel = 0) := by
  refine ⟨orderParameterSched_all_completed, ?_, ?_, fun cfg => ⟨rfl, rfl, rfl⟩⟩
  · intro m h
    have hf : m.processes.filter (fun p => p.state ≠ Sched.ProcessState.completed) = [] := by
      rw [List.filter_eq_nil_iff]
      intro p hp
      simp [h p hp]
    have hrun : m.processes.filter (fun p => p.state = Sched.ProcessState.running) = [] := by
      rw [List.filter_eq_nil_iff]
      intro p hp
      simp [h p hp]
    have hop := orderParameterSched_all_completed m.processes h
    unfold Sched.getState
    dsimp only
    rw [hf, hrun, hop]
    simp
  · intro boost noise now m h
    unfold Queen.synchronizationStep
    rw [h]
    simp

/-- Witness for C4: the empty task registry and an empty synchronizer. -/
theorem claim_C4_witness :
    (∀ p ∈ ([] : List Sched.ResonantProcess), p.state = Sched.ProcessState.completed) ∧
    Sched.calculateOrderParameterSched [] = (0, 0) ∧
    ((Sched.getState ⟨[], ⟨1, 1, 0.62, 0.3, 0.4, 4, 10⟩, 0, 0⟩).orderParameter = 0 ∧
     (Sched.getState ⟨[], ⟨1, 1, 0.62, 0.3, 0.4, 4, 10⟩, 0, 0⟩).meanPhase = 0 ∧
     (Sched.getState ⟨[], ⟨1, 1, 0.62, 0.3, 0.4, 4, 10⟩, 0, 0⟩).systemCoherence = 0 ∧
     (Sched.getState ⟨[], ⟨1, 1, 0.62, 0.3, 0.4, 4, 10⟩, 0, 0⟩).totalEnergy = 0 ∧
     (Sched.getState ⟨[], ⟨1, 1, 0.62, 0.3, 0.4, 4, 10⟩, 0, 0⟩).runningCount = 0) ∧
    (Queen.synchronizationStep 1.2 (fun _ => 0) 0
      ⟨[], Queen.initQueenState ⟨1.116, 0.01, 0.3, 0.85, 3, 10⟩,
        ⟨1.116, 0.01, 0.3, 0.85, 3, 10⟩, 0, []⟩ =
      ⟨[], Queen.initQueenState ⟨1.116, 0.01, 0.3, 0.85, 3, 10⟩,
        ⟨1.116, 0.01, 0.3, 0.85, 3, 10⟩, 0, []⟩) :=
  ⟨fun p hp => absurd hp (List.not_mem_nil p),
   claim_C4.1 [] (fun p hp => absurd hp (List.not_mem_nil p)),
   claim_C4.2.1 ⟨[], ⟨1, 1, 0.62, 0.3, 0.4, 4, 10⟩, 0, 0⟩
     (fun p hp => absurd hp (List.not_mem_nil p)),
   claim_C4.2.2.1 1.2 (fun _ => 0) 0 _ rfl⟩

/-- Replacing every entry carrying a key with a fresh record makes the
fresh record the first (and only) hit of a `find?` on that key. -/
theorem find?_map_replace {α : Type _} (key : α → String) (l : List α) (s : α)
    (h : l.any (fun x => key x = key s) = true) :
    (l.map (fun x => if key x = key s then s else x)).find?
      (fun x => key x = key s) = some s := by
  induction l with
  | nil => simp at h
  | cons a t ih =>
    by_cases ha : key a = key s
    · simp only [List.map_cons, if_pos ha]
      rw [List.find?_cons_of_pos _ (by simp)]
    · simp only [List.map_cons, if_neg ha]
      rw [List.find?_cons_of_neg _ (by simp [ha])]
      exact ih (by simpa [ha] using h)

/-- Claim C10: registering an id already present in the Queen registry,
or submitting a process id already present in the scheduler, silently
replaces the existing record with a freshly initialized one (previous
phase, coherence, lifecycle state and accumulated timing are discarded)
without growing the registry; the model functions are total, so no error
is raised. -/
theorem claim_C10 (rand now : ℝ) (id : String) (t : Queen.SubsystemType)
    (nf : Option ℝ) (m : Queen.QueenModel)
    (hpresent : m.subsystems.any (fun s => s.id = id) = true)
    (rand2 now2 : ℝ) (pid pname : String) (pc : Sched.ProcessClass)
    (opts : Sched.SubmitOptions) (sm : Sched.SchedulerModel)
    (hpresent2 : sm.processes.any (fun p => p.id = pid) = true) :
    ((Queen.registerSubsystem rand now id t nf m).subsystems.find?
        (fun s => s.id = id) =
      some { id := id, type := t, phase := rand * 2 * Real.pi,
             frequency := nf.getD (Queen.baseFrequency t), coherence := 0.5,
             energy := 1.0, handedness := Queen.assignHandedness t,
             lastUpdate := now } ∧
     (Queen.registerSubsystem rand now id t nf m).subsystems.length =
       m.subsystems.length) ∧
    ((Sched.submit rand2 now2 pid pname pc opts sm).processes.find?
        (fun p => p.id = pid) =
      some { id := pid, name := pname, processClass := pc,
             state := Sched.ProcessState.pending, phase := rand2 * 2 * Real.pi,
             frequency := Sched.frequencyForClass sm.config pc, amplitude := 1.0,
             damping := Sched.getDampingForClass sm.config pc,
             priority := opts.priority.getD 50, resonantPriority := 0,
             coherenceRequired := opts.coherenceRequired.getD 0.3,
             coherenceDeadline := opts.coherenceDeadline.getD (now2 + 60000),
             cpuRequired := opts.cpuRequired.getD 1,
             qubitsRequired := opts.qubitsRequired.getD 0,
             memoryRequired := opts.memoryRequired.getD 1024,
             handedness := Sched.handednessForClass pc,
             couplingStrength := sm.config.couplingStrength, createdAt := now2,
             startedAt := none, completedAt := none, executionTime := 0,
             waitTime := 0 } ∧
     (Sched.submit rand2 now2 pid pname pc opts sm).processes.length =
       sm.processes.length) := by
  constructor
  · unfold Queen.registerSubsystem Queen.setSubsystem
    dsimp only
    rw [if_pos hpresent]
    exact ⟨find?_map_replace Queen.SubsystemState.id m.subsystems
      { id := id, type := t, phase := rand * 2 * Real.pi,
        frequency := nf.getD (Queen.baseFrequency t), coherence := 0.5,
        energy := 1.0, handedness := Queen.assignHandedness t,
        lastUpdate := now } hpresent, by simp⟩
  · unfold Sched.submit Sched.setProcess
    dsimp only
    rw [if_pos hpresent2]
    exact ⟨find?_map_replace Sched.ResonantProcess.id sm.processes
      { id := pid, name := pname, processClass := pc,
        state := Sched.ProcessState.pending, phase := rand2 * 2 * Real.pi,
        frequency := Sched.frequencyForClass sm.config pc, amplitude := 1.0,
        damping := Sched.getDampingForClass sm.config pc,
        priority := opts.priority.getD 50, resonantPriority := 0,
        coherenceRequired := opts.coherenceRequired.getD 0.3,
        coherenceDeadline := opts.coherenceDeadline.getD (now2 + 60000),
        cpuRequired := opts.cpuRequired.getD 1,
        qubitsRequired := opts.qubitsRequired.getD 0,
        memoryRequired := opts.memoryRequired.getD 1024,
        handedness := Sched.handednessForClass pc,
        couplingStrength := sm.config.couplingStrength, createdAt := now2,
        startedAt := none, completedAt := none, executionTime := 0,
        waitTime := 0 } hpresent2, by simp⟩

/-- Witness for C10: re-registering id "a" over a one-agent registry and
re-submitting id "p" over a one-task registry. -/
theorem claim_C10_witness :
    (queenWithA.subsystems.any (fun s => s.id = "a") = true) ∧
    (schedWithP.processes.any (fun p => p.id = "p") = true) ∧
    ((Queen.registerSubsystem 0 0 "a" Queen.SubsystemType.safety none
        queenWithA).subsystems.find? (fun s => s.id = "a") =
      some { id := "a", type := Queen.SubsystemType.safety,
             phase := 0 * 2 * Real.pi,
             frequency := (none : Option ℝ).getD
               (Queen.baseFrequency Queen.SubsystemType.safety),
             coherence := 0.5, energy := 1.0,
             handedness := Queen.assignHandedness Queen.SubsystemType.safety,
             lastUpdate := 0 }) ∧
    ((Queen.registerSubsystem 0 0 "a" Queen.SubsystemType.safety none
        queenWithA).subsystems.length = queenWithA.subsystems.length) ∧
    ((Sched.submit 0 0 "p" "fresh" Sched.ProcessClass.classical {}
        schedWithP).processes.length = schedWithP.processes.length) := by
  have hq : queenWithA.subsystems.any (fun s => s.id = "a") = true := by
    simp [queenWithA, agentA]
  have hs : schedWithP.processes.any (fun p => p.id = "p") = true := by
    simp [schedWithP, oldProcessP]
  have h := claim_C10 0 0 "a" Queen.SubsystemType.safety none queenWithA hq
    0 0 "p" "fresh" Sched.ProcessClass.classical {} schedWithP hs
  exact ⟨hq, hs, h.1.1, h.1.2, h.2.2⟩

/-- The local coherence of `calculateLocalCoherence` is capped at 1 and
bounded below by `-boost` (by 0 for achiral agents). -/
theorem calculateLocalCoherence_bounds (boost : ℝ) (s : Queen.SubsystemState)
    (r psi : ℝ) (hb : 1 ≤ boost) :
    Queen.calculateLocalCoherence boost s r psi ≤ 1 ∧
    -boost ≤ Queen.calculateLocalCoherence boost s r psi ∧
    (s.handedness = Safety.Handedness.achiral →
      0 ≤ Queen.calculateLocalCoherence boost s r psi ∧
      Queen.calculateLocalCoherence boost s r psi ≤ 1) := by
  unfold Queen.calculateLocalCoherence
  dsimp only
  by_cases h : s.handedness = Safety.Handedness.achiral
  · rw [if_neg (by simp [h])]
    have hcos := Real.cos_le_one |s.phase - psi|
    have hle : max 0 ((Real.cos |s.phase - psi| + 1) / 2) ≤ 1 :=
      max_le (by norm_num) (by linarith)
    have hge : (0 : ℝ) ≤ max 0 ((Real.cos |s.phase - psi| + 1) / 2) := le_max_left _ _
    exact ⟨hle, by linarith, fun _ => ⟨hge, hle⟩⟩
  · rw [if_pos h]
    have h1 : -boost ≤ Real.cos |s.phase - psi| * boost := by
      nlinarith [Real.neg_one_le_cos |s.phase - psi|]
    have h2 : -boost ≤ (1 : ℝ) := by linarith
    exact ⟨min_le_left _ _, le_min h2 h1, fun hc => absurd hc h⟩

/-- Counterexample to C9 as stated: after one tick of `c9Queen` (noise
zero), the left-handed agent at phase `π` against mean phase `ψ = 0` has
local coherence `min(1, cos π · boost) = -boost < 0`, outside `[0, 1]`.
The numeric `CISS_COUPLING.coherenceBoost` is absent from the snapshot
(truncated src/constants.ts); the spec's "boosted multiplicatively"
gives `boost > 1`, instantiated here as `6/5` (any positive value
produces a negative coherence at this input). -/
theorem claim_C9_counterexample :
    (((Queen.synchronizationStep (6/5) (fun _ => 0) 0 c9Queen).subsystems.map
      (fun s => s.coherence)).head? = some (-(6/5) : ℝ)) ∧
    ¬((0 : ℝ) ≤ -(6/5)) := by
  refine ⟨?_, by norm_num⟩
  have hlen : ¬(c9Queen.subsystems.length = 0) := by
    simp [c9Queen]
  have hrp : calculateOrderParameter (c9Queen.subsystems.map (fun s2 => s2.phase)) =
      (0, 0) := by
    have hl : c9Queen.subsystems.map (fun s2 => s2.phase) = [Real.pi, 0] := by
      simp [c9Queen, c9AgentLeft, c9AgentRight]
    rw [hl]
    unfold calculateOrderParameter
    dsimp only
    have hC : (List.map Real.cos [Real.pi, 0]).sum = 0 := by
      simp [Real.cos_pi]
    have hS : (List.map Real.sin [Real.pi, 0]).sum = 0 := by
      simp
    rw [hC, hS]
    simp only [zero_div, mul_zero, add_zero, Real.sqrt_zero]
    have hat : atan2 0 0 = 0 := by
      unfold atan2
      rw [show (⟨0, 0⟩ : ℂ) = 0 from rfl]
      exact Complex.arg_zero
    rw [hat]
  have hsubs : (Queen.synchronizationStep (6/5) (fun _ => 0) 0 c9Queen).subsystems =
      c9Queen.subsystems.map (fun s =>
        let rp := calculateOrderParameter (c9Queen.subsystems.map (fun s2 => s2.phase))
        let qs1 := { c9Queen.queenState with orderParameter := rp.1, meanPhase := rp.2 }
        let dPhase := Queen.calculatePhaseDerivative qs1 s rp.1 rp.2 0
        let p1 := jsMod (s.phase + dPhase * (c9Queen.config.syncInterval / 1000))
          (2 * Real.pi)
        let p2 := if p1 < 0 then p1 + 2 * Real.pi else p1
        let s1 := { s with phase := p2, lastUpdate := 0 }
        { s1 with coherence := Queen.calculateLocalCoherence (6/5) s1 rp.1 rp.2 }) := by
    rw [Queen.synchronizationStep, if_neg hlen]
    exact mapIdx_const_fun _ _
  rw [hsubs, hrp]
  rw [show c9Queen.subsystems = [c9AgentLeft, c9AgentRight] from rfl]
  simp only [List.map_cons, List.head?_cons, Option.some_inj]
  have hdP : Queen.calculatePhaseDerivative
      { centralPhase := c9Queen.queenState.centralPhase, orderParameter := 0,
        meanPhase := 0, couplingStrength := c9Queen.queenState.couplingStrength,
        chiralBias := c9Queen.queenState.chiralBias,
        coherenceLevel := c9Queen.queenState.coherenceLevel,
        phiValue := c9Queen.queenState.phiValue,
        stabilityScore := c9Queen.queenState.stabilityScore }
      c9AgentLeft 0 0 0 = 0 := by
    unfold Queen.calculatePhaseDerivative
    dsimp only
    rw [show c9AgentLeft.handedness = Safety.Handedness.left from rfl]
    dsimp only
    rw [show c9AgentLeft.frequency = (0 : ℝ) from rfl,
      show c9AgentLeft.phase = Real.pi from rfl]
    have h2 : (2 : ℝ) * ((0 : ℝ) - Real.pi) = -(2 * Real.pi) := by ring
    rw [h2, Real.sin_neg, Real.sin_two_pi]
    ring
  rw [hdP]
  rw [show c9AgentLeft.phase = Real.pi from rfl]
  rw [show Real.pi + 0 * (c9Queen.config.syncInterval / 1000) = Real.pi from by ring]
  have hmod : jsMod Real.pi (2 * Real.pi) = Real.pi := by
    unfold jsMod jsTrunc
    have hdiv : Real.pi / (2 * Real.pi) = 1 / 2 := by
      rw [div_eq_iff (by positivity : (2 : ℝ) * Real.pi ≠ 0)]
      ring
    rw [hdiv, if_pos (by norm_num : (0 : ℝ) ≤ 1 / 2)]
    rw [show ⌊(1 / 2 : ℝ)⌋ = 0 from
      Int.floor_eq_zero_iff.mpr (by constructor <;> norm_num)]
    push_cast
    ring
  rw [hmod, if_neg (not_lt.mpr Real.pi_pos.le)]
  unfold Queen.calculateLocalCoherence
  dsimp only
  rw [show c9AgentLeft.handedness = Safety.Handedness.left from rfl]
  rw [if_pos (by simp : Safety.Handedness.left ≠ Safety.Handedness.achiral)]
  rw [sub_zero, abs_of_pos Real.pi_pos, Real.cos_pi]
  rw [min_eq_right (by norm_num : (-1 : ℝ) * (6 / 5) ≤ 1)]
  norm_num

/-- Amended C9: after every synchronization tick every agent's local
coherence is at most 1; achiral agents' coherence lies in `[0, 1]`; for
chiral agents it is only bounded below by `-boost` (the cap applies at
the top only), so it can be negative when the agent sits opposite the
mean phase. -/
theorem claim_C9_amended (boost : ℝ) (noise : ℕ → ℝ) (now : ℝ)
    (m : Queen.QueenModel) (hboost : 1 ≤ boost) :
    ∀ s2 ∈ (Queen.synchronizationStep boost noise now m).subsystems,
      s2.coherence ≤ 1 ∧ -boost ≤ s2.coherence ∧
      (s2.handedness = Safety.Handedness.achiral →
        0 ≤ s2.coherence ∧ s2.coherence ≤ 1) := by
  intro s2 hs2
  by_cases h0 : m.subsystems.length = 0
  · unfold Queen.synchronizationStep at hs2
    rw [if_pos h0] at hs2
    rw [List.length_eq_zero.mp h0] at hs2
    exact absurd hs2 (List.not_mem_nil s2)
  · unfold Queen.synchronizationStep at hs2
    rw [if_neg h0] at hs2
    dsimp only at hs2
    rw [List.mapIdx_eq_enum_map] at hs2
    obtain ⟨⟨i, s⟩, hmem, rfl⟩ := List.mem_map.mp hs2
    simp only [Function.uncurry]
    exact calculateLocalCoherence_bounds boost _ _ _ hboost

/-- Witness for the amended C9 at a concrete tick of `queenWithA` with
`boost = 1`. -/
theorem claim_C9_amended_witness :
    ((1 : ℝ) ≤ 1) ∧
    (∀ s2 ∈ (Queen.synchronizationStep 1 (fun _ => 0) 0 queenWithA).subsystems,
      s2.coherence ≤ 1 ∧ -(1 : ℝ) ≤ s2.coherence ∧
      (s2.handedness = Safety.Handedness.achiral →
        0 ≤ s2.coherence ∧ s2.coherence ≤ 1)) :=
  ⟨le_refl 1, claim_C9_amended 1 (fun _ => 0) 0 queenWithA (le_refl 1)⟩

-- Scheduler-trace lemmas (for claim C2)

/-- `Math.atan2` on a point with positive `x` is `arctan (y/x)`. -/
theorem atan2_of_pos (y x : ℝ) (hx : 0 < x) : atan2 y x = Real.arctan (y / x) := by
  unfold atan2
  have hr : 0 < Real.sqrt (x ^ 2 + y ^ 2) := Real.sqrt_pos.mpr (by positivity)
  have hθIoc : Real.arctan (y / x) ∈ Set.Ioc (-Real.pi) Real.pi := by
    constructor
    · have := Real.neg_pi_div_two_lt_arctan (y / x)
      have := Real.pi_pos
      linarith
    · have := Real.arctan_lt_pi_div_two (y / x)
      have := Real.pi_pos
      linarith
  have hsq : Real.sqrt (1 + (y / x) ^ 2) = Real.sqrt (x ^ 2 + y ^ 2) / x := by
    rw [show 1 + (y / x) ^ 2 = (x ^ 2 + y ^ 2) / x ^ 2 by field_simp]
    rw [Real.sqrt_div (by positivity) _, Real.sqrt_sq hx.le]
  have hcos : Real.sqrt (x ^ 2 + y ^ 2) * Real.cos (Real.arctan (y / x)) = x := by
    rw [Real.cos_arctan, hsq]
    field_simp
  have hsin : Real.sqrt (x ^ 2 + y ^ 2) * Real.sin (Real.arctan (y / x)) = y := by
    rw [Real.sin_arctan, hsq]
    field_simp
  have hz : (⟨x, y⟩ : ℂ) = (Real.sqrt (x ^ 2 + y ^ 2) : ℝ) *
      (Complex.cos (Real.arctan (y / x)) + Complex.sin (Real.arctan (y / x)) * Complex.I) := by
    rw [← Complex.ofReal_cos, ← Complex.ofReal_sin]
    apply Complex.ext
    · show x = _
      simp only [Complex.mul_re, Complex.add_re, Complex.ofReal_re, Complex.add_im,
        Complex.ofReal_im, Complex.mul_im, Complex.I_re, Complex.I_im]
      ring_nf
      ring_nf at hcos
      linarith [hcos]
    · show y = _
      simp only [Complex.mul_re, Complex.add_re, Complex.ofReal_re, Complex.add_im,
        Complex.ofReal_im, Complex.mul_im, Complex.I_re, Complex.I_im]
      ring_nf
      ring_nf at hsin
      linarith [hsin]
  rw [hz, Complex.arg_mul_cos_add_sin_mul_I hr hθIoc]

/-- The JS remainder is the identity on `[0, b)`. -/
theorem jsMod_eq_self (a b : ℝ) (h0 : 0 ≤ a) (hb : a < b) : jsMod a b = a := by
  unfold jsMod jsTrunc
  have hbpos : 0 < b := lt_of_le_of_lt h0 hb
  have hdiv : 0 ≤ a / b := div_nonneg h0 hbpos.le
  have hdiv2 : a / b < 1 := (div_lt_one hbpos).mpr hb
  rw [if_pos hdiv, Int.floor_eq_zero_iff.mpr ⟨hdiv, hdiv2⟩]
  push_cast
  ring

/-- A scheduling cycle with zero elapsed time leaves the oscillator
dynamics unchanged (phases already wrapped, amplitudes already inside
the clamp band). -/
theorem updateDynamics_zero (cfg : Sched.SchedulerConfig)
    (procs : List Sched.ResonantProcess)
    (h : ∀ p ∈ procs, 0 ≤ p.phase ∧ p.phase < 2 * Real.pi ∧
      0.1 ≤ p.amplitude ∧ p.amplitude ≤ 2) :
    Sched.updateDynamics cfg 0 procs = procs := by
  unfold Sched.updateDynamics
  dsimp only
  have hmap : ∀ (f : Sched.ResonantProcess → Sched.ResonantProcess),
      (∀ p ∈ procs, f p = p) → procs.map f = procs := by
    intro f hf
    rw [List.map_congr_left hf]
    exact List.map_id procs
  apply hmap
  intro p hp
  obtain ⟨hp0, hp2, ha1, ha2⟩ := h p hp
  by_cases hc : p.state = Sched.ProcessState.completed
  · rw [if_pos hc]
  · rw [if_neg hc]
    have ha2' : p.amplitude ≤ (2.0 : ℝ) := by
      norm_num
      exact ha2
    rw [mul_zero, add_zero, jsMod_eq_self p.phase (2 * Real.pi) hp0 hp2,
      if_neg (not_lt.mpr hp0), mul_zero, add_zero, zero_mul, add_zero,
      min_eq_right ha2', max_eq_right ha1, ite_self]

/-- Submitting "a" (phase draw 0) to the fresh scheduler registers `c2A0`. -/
theorem c2_submit_a :
    Sched.submit 0 0 "a" "a" Sched.ProcessClass.classical (c2Opts 50 0) c2Empty =
      { processes := [c2A0], config := c2Config, tick := 0, lastScheduleTime := 0 } := by
  unfold Sched.submit Sched.setProcess
  simp [c2Empty, c2Opts, c2A0, c2Config, Sched.frequencyForClass,
    Sched.getDampingForClass, Sched.handednessForClass]
  norm_num

/-- Submitting "b" (phase draw 1/4, priority 99, coherence requirement
0.9) appends `c2B0`. -/
theorem c2_submit_b :
    Sched.submit (1/4) 0 "b" "b" Sched.ProcessClass.classical (c2Opts 99 (9/10))
      { processes := [c2A0], config := c2Config, tick := 0, lastScheduleTime := 0 } =
      { processes := [c2A0, c2B0], config := c2Config, tick := 0,
        lastScheduleTime := 0 } := by
  unfold Sched.submit Sched.setProcess
  simp [c2Opts, c2A0, c2B0, c2Config, Sched.frequencyForClass,
    Sched.getDampingForClass, Sched.handednessForClass]
  ring_nf
  exact ⟨trivial, trivial, trivial⟩

/-- Order parameter of phases `[0, π/2]`: `r = √(1/2)`, `ψ = π/4`. -/
theorem c2_op_ab :
    calculateOrderParameter [0, Real.pi/2] = (Real.sqrt (1/2), Real.pi/4) := by
  unfold calculateOrderParameter
  dsimp only
  rw [show (List.map Real.cos [0, Real.pi/2]).sum = 1 by
    simp [Real.cos_pi_div_two]]
  rw [show (List.map Real.sin [0, Real.pi/2]).sum = 1 by simp]
  norm_num
  rw [atan2_of_pos _ _ (by norm_num)]
  norm_num [Real.arctan_one]

/-- Order parameter of phases `[0, π/2, π/2]`: `r = √5/3`, `ψ = arctan 2`. -/
theorem c2_op_abc :
    calculateOrderParameter [0, Real.pi/2, Real.pi/2] =
      (Real.sqrt 5 / 3, Real.arctan 2) := by
  unfold calculateOrderParameter
  dsimp only
  rw [show (List.map Real.cos [0, Real.pi/2, Real.pi/2]).sum = 1 by
    simp [Real.cos_pi_div_two]]
  rw [show (List.map Real.sin [0, Real.pi/2, Real.pi/2]).sum = 2 by
    simp [Real.sin_pi_div_two]; norm_num]
  norm_num
  constructor
  · rw [show (9 : ℝ) = 3^2 by norm_num, Real.sqrt_sq (by norm_num : (0:ℝ) ≤ 3)]
  · rw [atan2_of_pos _ _ (by norm_num)]
    norm_num

/-- Scheduler aggregate on any registry whose active phases are `[0, π/2]`. -/
theorem c2_orderSched_ab (procs : List Sched.ResonantProcess)
    (h : (procs.filter (fun p => p.state ≠ Sched.ProcessState.completed)).map
      (fun p => p.phase) = [0, Real.pi/2]) :
    Sched.calculateOrderParameterSched procs = (Real.sqrt (1/2), Real.pi/4) := by
  unfold Sched.calculateOrderParameterSched
  dsimp only
  have hlen : (procs.filter
      (fun p => p.state ≠ Sched.ProcessState.completed)).length = 2 := by
    have h2 := congrArg List.length h
    simpa using h2
  rw [if_neg (by rw [hlen]; norm_num), h, c2_op_ab]

/-- Scheduler aggregate on any registry whose active phases are
`[0, π/2, π/2]`. -/
theorem c2_orderSched_abc (procs : List Sched.ResonantProcess)
    (h : (procs.filter (fun p => p.state ≠ Sched.ProcessState.completed)).map
      (fun p => p.phase) = [0, Real.pi/2, Real.pi/2]) :
    Sched.calculateOrderParameterSched procs = (Real.sqrt 5 / 3, Real.arctan 2) := by
  unfold Sched.calculateOrderParameterSched
  dsimp only
  have hlen : (procs.filter
      (fun p => p.state ≠ Sched.ProcessState.completed)).length = 3 := by
    have h2 := congrArg List.length h
    simpa using h2
  rw [if_neg (by rw [hlen]; norm_num), h, c2_op_abc]

/-- First cycle priority pass: "a" gets `50 + 5√2`, "b" is clamped to 100. -/
theorem c2_crp1 :
    Sched.calculateResonantPriorities 0 [c2A0, c2B0] = [c2A1p, c2B1p] := by
  have hs2a : (1:ℝ) ≤ Real.sqrt 2 := by
    nlinarith [Real.sq_sqrt (show (0:ℝ) ≤ 2 by norm_num), Real.sqrt_nonneg 2]
  have hs2b : Real.sqrt 2 ≤ 2 := by
    nlinarith [Real.sq_sqrt (show (0:ℝ) ≤ 2 by norm_num), Real.sqrt_nonneg 2]
  unfold Sched.calculateResonantPriorities
  dsimp only
  rw [c2_orderSched_ab _ (by simp [c2A0, c2B0])]
  dsimp only
  simp only [List.map_cons, List.map_nil, List.cons.injEq, and_true]
  constructor
  · rw [if_neg (by simp [c2A0] : ¬(c2A0.state = Sched.ProcessState.completed))]
    rw [show c2A1p = { c2A0 with resonantPriority := 50 + 5 * Real.sqrt 2 } from rfl]
    congr 1
    rw [show c2A0.phase = (0:ℝ) from rfl]
    rw [show |(0:ℝ) - Real.pi/4| = Real.pi/4 from by
      rw [zero_sub, abs_neg, abs_of_pos (by positivity)]]
    rw [Real.cos_pi_div_four]
    rw [show c2A0.handedness = Safety.Handedness.achiral from rfl]
    rw [if_neg (by simp : ¬(Safety.Handedness.achiral = Safety.Handedness.right ∧
      0.7 < Real.sqrt (1/2)))]
    rw [show c2A0.waitTime = (0:ℝ) from rfl]
    rw [show (0:ℝ)/1000 = 0 from by norm_num,
      min_eq_left (by norm_num : (0:ℝ) ≤ 20)]
    rw [show c2A0.coherenceDeadline = (1000000:ℝ) from rfl]
    rw [if_neg (by norm_num : ¬((1000000:ℝ) - 0 < 10000))]
    rw [show c2A0.processClass = Sched.ProcessClass.classical from rfl]
    rw [if_neg (by simp : ¬(Sched.ProcessClass.classical = Sched.ProcessClass.quantum ∧
      0 < c2A0.qubitsRequired))]
    rw [if_neg (by simp :
      ¬(Sched.ProcessClass.classical = Sched.ProcessClass.consciousness))]
    rw [show c2A0.priority = (50:ℝ) from rfl]
    rw [add_zero]
    rw [min_eq_right (by nlinarith [hs2b] : (50:ℝ) + Real.sqrt 2 / 2 * 10 ≤ 100)]
    rw [max_eq_right (by positivity : (0:ℝ) ≤ 50 + Real.sqrt 2 / 2 * 10)]
    ring
  · rw [if_neg (by simp [c2B0, c2A0] : ¬(c2B0.state = Sched.ProcessState.completed))]
    rw [show c2B1p = { c2B0 with resonantPriority := 100 } from rfl]
    congr 1
    rw [show c2B0.phase = Real.pi/2 from rfl]
    rw [show |Real.pi/2 - Real.pi/4| = Real.pi/4 from by
      rw [show Real.pi/2 - Real.pi/4 = Real.pi/4 from by ring,
        abs_of_pos (by positivity)]]
    rw [Real.cos_pi_div_four]
    rw [show c2B0.handedness = Safety.Handedness.achiral from rfl]
    rw [if_neg (by simp : ¬(Safety.Handedness.achiral = Safety.Handedness.right ∧
      0.7 < Real.sqrt (1/2)))]
    rw [show c2B0.waitTime = (0:ℝ) from rfl]
    rw [show (0:ℝ)/1000 = 0 from by norm_num,
      min_eq_left (by norm_num : (0:ℝ) ≤ 20)]
    rw [show c2B0.coherenceDeadline = (1000000:ℝ) from rfl]
    rw [if_neg (by norm_num : ¬((1000000:ℝ) - 0 < 10000))]
    rw [show c2B0.processClass = Sched.ProcessClass.classical from rfl]
    rw [if_neg (by simp : ¬(Sched.ProcessClass.classical = Sched.ProcessClass.quantum ∧
      0 < c2B0.qubitsRequired))]
    rw [if_neg (by simp :
      ¬(Sched.ProcessClass.classical = Sched.ProcessClass.consciousness))]
    rw [show c2B0.priority = (99:ℝ) from rfl]
    rw [add_zero]
    rw [min_eq_left (by nlinarith [hs2a] : (100:ℝ) ≤ 99 + Real.sqrt 2 / 2 * 10)]
    rw [max_eq_right (by norm_num : (0:ℝ) ≤ 100)]

/-- First cycle decisions: the single slot is offered to top-priority "b",
whose coherence `(√2/2+1)/2 ≈ 0.854` misses its 0.9 requirement, so "b" is
sent to coherence_wait; both tasks are promoted to ready. -/
theorem c2_mk1 :
    Sched.makeDecisions
      { processes := [c2A1p, c2B1p], config := c2Config, tick := 0,
        lastScheduleTime := 0 } =
      ([{ processId := "b", action := Sched.DecisionAction.wait,
          resonantPriority := 100, coherenceWindow := 0 }],
       [c2A1, c2B1r]) := by
  unfold Sched.makeDecisions
  dsimp only
  rw [c2_orderSched_ab _ (by simp [c2A1p, c2B1p, c2A0, c2B0])]
  dsimp only
  have hs2b : Real.sqrt 2 < 1.6 := by
    nlinarith [Real.sq_sqrt (show (0:ℝ) ≤ 2 by norm_num), Real.sqrt_nonneg 2]
  have hcw : Sched.getProcessesByState Sched.ProcessState.coherenceWait
      [c2A1p, c2B1p] = [] := by
    simp [Sched.getProcessesByState, c2A1p, c2B1p, c2A0, c2B0]
  have hre : Sched.getProcessesByState Sched.ProcessState.ready
      [c2A1p, c2B1p] = [] := by
    simp [Sched.getProcessesByState, c2A1p, c2B1p, c2A0, c2B0]
  have hru : Sched.getProcessesByState Sched.ProcessState.running
      [c2A1p, c2B1p] = [] := by
    simp [Sched.getProcessesByState, c2A1p, c2B1p, c2A0, c2B0]
  have hpe : Sched.getProcessesByState Sched.ProcessState.pending
      [c2A1p, c2B1p] = [c2A1p, c2B1p] := by
    simp [Sched.getProcessesByState, c2A1p, c2B1p, c2A0, c2B0]
  rw [hcw, hre, hru, hpe]
  simp only [List.filterMap_nil, List.length_nil, List.nil_append, Nat.cast_zero,
    sub_zero]
  rw [show ((c2Config.maxRunning : ℕ) : ℤ) = 1 from rfl]
  rw [if_pos (by norm_num : (0:ℤ) < 1)]
  rw [if_neg (by simp : ¬((0:ℕ) ≠ 0 ∧ c2Config.maxRunning ≤ 0))]
  have hsort : Sched.sortByPriorityDesc [c2A1p, c2B1p] = [c2B1p, c2A1p] := by
    unfold Sched.sortByPriorityDesc
    simp only [List.foldr_cons, List.foldr_nil]
    simp only [Sched.insertByPriorityDesc]
    rw [show c2B1p.resonantPriority = (100:ℝ) from rfl,
      show c2A1p.resonantPriority = 50 + 5 * Real.sqrt 2 from rfl]
    rw [if_neg (by nlinarith [hs2b] : ¬((100:ℝ) ≤ 50 + 5 * Real.sqrt 2))]
  rw [hsort]
  rw [show List.take ((1:ℤ).toNat ⊓ ([c2B1p, c2A1p] : List Sched.ResonantProcess).length)
    [c2B1p, c2A1p] = [c2B1p] from rfl]
  simp only [List.map_cons, List.map_nil]
  rw [show c2B1p.coherenceRequired = (0.9:ℝ) from rfl,
    show c2B1p.phase = Real.pi/2 from rfl]
  rw [show |Real.pi/2 - Real.pi/4| = Real.pi/4 from by
    rw [show Real.pi/2 - Real.pi/4 = Real.pi/4 from by ring,
      abs_of_pos (by positivity)]]
  rw [Real.cos_pi_div_four]
  rw [if_neg (by nlinarith [hs2b] : ¬((0.9:ℝ) ≤ (Real.sqrt 2/2 + 1)/2))]
  rw [if_pos (show c2A1p.state = Sched.ProcessState.pending from rfl)]
  rw [if_pos (show c2B1p.state = Sched.ProcessState.pending from rfl)]
  rfl

/-- The first full scheduling cycle parks "b" in coherence_wait. -/
theorem c2_cycle1 :
    Sched.schedule 0
      { processes := [c2A0, c2B0], config := c2Config, tick := 0,
        lastScheduleTime := 0 } =
      ([{ processId := "b", action := Sched.DecisionAction.wait,
          resonantPriority := 100, coherenceWindow := 0 }],
       { processes := [c2A1, c2B1], config := c2Config, tick := 1,
         lastScheduleTime := 0 }) := by
  unfold Sched.schedule
  dsimp only
  rw [show ((0:ℝ) - 0)/1000 = 0 from by norm_num]
  rw [updateDynamics_zero c2Config [c2A0, c2B0] (by
    intro p hp
    simp only [List.mem_cons, List.not_mem_nil, or_false] at hp
    rcases hp with h | h <;> subst h
    · exact ⟨le_refl 0, by show (0:ℝ) < 2*Real.pi; positivity,
        by show (0.1:ℝ) ≤ 1; norm_num, by show (1:ℝ) ≤ 2; norm_num⟩
    · exact ⟨by show (0:ℝ) ≤ Real.pi/2; positivity,
        by show Real.pi/2 < 2*Real.pi; linarith [Real.pi_pos],
        by show (0.1:ℝ) ≤ 1; norm_num, by show (1:ℝ) ≤ 2; norm_num⟩)]
  rw [c2_crp1]
  rw [c2_mk1]
  rfl

/-- Second cycle priority pass: a fixpoint of the first. -/
theorem c2_crp2 :
    Sched.calculateResonantPriorities 0 [c2A1, c2B1] = [c2A1, c2B1] := by
  have hs2a : (1:ℝ) ≤ Real.sqrt 2 := by
    nlinarith [Real.sq_sqrt (show (0:ℝ) ≤ 2 by norm_num), Real.sqrt_nonneg 2]
  have hs2b : Real.sqrt 2 ≤ 2 := by
    nlinarith [Real.sq_sqrt (show (0:ℝ) ≤ 2 by norm_num), Real.sqrt_nonneg 2]
  unfold Sched.calculateResonantPriorities
  dsimp only
  rw [c2_orderSched_ab _ (by simp [c2A1, c2B1, c2A0, c2B0])]
  dsimp only
  simp only [List.map_cons, List.map_nil, List.cons.injEq, and_true]
  constructor
  · rw [if_neg (by decide : ¬(c2A1.state = Sched.ProcessState.completed))]
    rw [show c2A1.phase = (0:ℝ) from rfl]
    rw [show |(0:ℝ) - Real.pi/4| = Real.pi/4 from by
      rw [zero_sub, abs_neg, abs_of_pos (by positivity)]]
    rw [Real.cos_pi_div_four]
    rw [show c2A1.handedness = Safety.Handedness.achiral from rfl]
    rw [if_neg (by simp : ¬(Safety.Handedness.achiral = Safety.Handedness.right ∧
      0.7 < Real.sqrt (1/2)))]
    rw [show c2A1.waitTime = (0:ℝ) from rfl]
    rw [show (0:ℝ)/1000 = 0 from by norm_num,
      min_eq_left (by norm_num : (0:ℝ) ≤ 20)]
    rw [show c2A1.coherenceDeadline = (1000000:ℝ) from rfl]
    rw [if_neg (by norm_num : ¬((1000000:ℝ) - 0 < 10000))]
    rw [show c2A1.processClass = Sched.ProcessClass.classical from rfl]
    rw [if_neg (by simp : ¬(Sched.ProcessClass.classical = Sched.ProcessClass.quantum ∧
      0 < c2A1.qubitsRequired))]
    rw [if_neg (by simp :
      ¬(Sched.ProcessClass.classical = Sched.ProcessClass.consciousness))]
    rw [show c2A1.priority = (50:ℝ) from rfl]
    rw [add_zero]
    rw [min_eq_right (by nlinarith [hs2b] : (50:ℝ) + Real.sqrt 2 / 2 * 10 ≤ 100)]
    rw [max_eq_right (by positivity : (0:ℝ) ≤ 50 + Real.sqrt 2 / 2 * 10)]
    rw [show (50:ℝ) + Real.sqrt 2 / 2 * 10 = 50 + 5 * Real.sqrt 2 from by ring]
    rfl
  · rw [if_neg (by decide : ¬(c2B1.state = Sched.ProcessState.completed))]
    rw [show c2B1.phase = Real.pi/2 from rfl]
    rw [show |Real.pi/2 - Real.pi/4| = Real.pi/4 from by
      rw [show Real.pi/2 - Real.pi/4 = Real.pi/4 from by ring,
        abs_of_pos (by positivity)]]
    rw [Real.cos_pi_div_four]
    rw [show c2B1.handedness = Safety.Handedness.achiral from rfl]
    rw [if_neg (by simp : ¬(Safety.Handedness.achiral = Safety.Handedness.right ∧
      0.7 < Real.sqrt (1/2)))]
    rw [show c2B1.waitTime = (0:ℝ) from rfl]
    rw [show (0:ℝ)/1000 = 0 from by norm_num,
      min_eq_left (by norm_num : (0:ℝ) ≤ 20)]
    rw [show c2B1.coherenceDeadline = (1000000:ℝ) from rfl]
    rw [if_neg (by norm_num : ¬((1000000:ℝ) - 0 < 10000))]
    rw [show c2B1.processClass = Sched.ProcessClass.classical from rfl]
    rw [if_neg (by simp : ¬(Sched.ProcessClass.classical = Sched.ProcessClass.quantum ∧
      0 < c2B1.qubitsRequired))]
    rw [if_neg (by simp :
      ¬(Sched.ProcessClass.classical = Sched.ProcessClass.consciousness))]
    rw [show c2B1.priority = (99:ℝ) from rfl]
    rw [add_zero]
    rw [min_eq_left (by nlinarith [hs2a] : (100:ℝ) ≤ 99 + Real.sqrt 2 / 2 * 10)]
    rw [max_eq_right (by norm_num : (0:ℝ) ≤ 100)]
    rfl

/-- Second cycle decisions: ready "a" takes the single slot. -/
theorem c2_mk2 :
    Sched.makeDecisions
      { processes := [c2A1, c2B1], config := c2Config, tick := 1,
        lastScheduleTime := 0 } =
      ([{ processId := "a", action := Sched.DecisionAction.schedule,
          resonantPriority := 50 + 5 * Real.sqrt 2, coherenceWindow := 1000 }],
       [c2A1, c2B1]) := by
  unfold Sched.makeDecisions
  dsimp only
  rw [c2_orderSched_ab _ (by simp [c2A1, c2B1, c2A0, c2B0])]
  dsimp only
  have hs2b : Real.sqrt 2 < 1.6 := by
    nlinarith [Real.sq_sqrt (show (0:ℝ) ≤ 2 by norm_num), Real.sqrt_nonneg 2]
  have hcw : Sched.getProcessesByState Sched.ProcessState.coherenceWait
      [c2A1, c2B1] = [c2B1] := by
    simp [Sched.getProcessesByState, c2A1, c2B1, c2A0, c2B0]
  have hre : Sched.getProcessesByState Sched.ProcessState.ready
      [c2A1, c2B1] = [c2A1] := by
    simp [Sched.getProcessesByState, c2A1, c2B1, c2A0, c2B0]
  have hru : Sched.getProcessesByState Sched.ProcessState.running
      [c2A1, c2B1] = [] := by
    simp [Sched.getProcessesByState, c2A1, c2B1, c2A0, c2B0]
  have hpe : Sched.getProcessesByState Sched.ProcessState.pending
      [c2A1, c2B1] = [] := by
    simp [Sched.getProcessesByState, c2A1, c2B1, c2A0, c2B0]
  rw [hcw, hre, hru, hpe]
  simp only [List.filterMap_cons, List.filterMap_nil, List.length_nil,
    List.append_nil, Nat.cast_zero, sub_zero]
  rw [show c2B1.coherenceRequired = (0.9:ℝ) from rfl,
    show c2B1.phase = Real.pi/2 from rfl]
  rw [show |Real.pi/2 - Real.pi/4| = Real.pi/4 from by
    rw [show Real.pi/2 - Real.pi/4 = Real.pi/4 from by ring,
      abs_of_pos (by positivity)]]
  rw [Real.cos_pi_div_four]
  rw [if_neg (by nlinarith [hs2b] : ¬((0.9:ℝ) ≤ (Real.sqrt 2/2 + 1)/2))]
  rw [show ((c2Config.maxRunning : ℕ) : ℤ) = 1 from rfl]
  rw [if_pos (by norm_num : (0:ℤ) < 1)]
  rw [show Sched.sortByPriorityDesc [c2A1] = [c2A1] from rfl]
  rw [show List.take ((1:ℤ).toNat ⊓ ([c2A1] : List Sched.ResonantProcess).length)
    [c2A1] = [c2A1] from rfl]
  simp only [List.map_cons, List.map_nil]
  rw [show c2A1.coherenceRequired = (0:ℝ) from rfl,
    show c2A1.phase = (0:ℝ) from rfl]
  rw [show |(0:ℝ) - Real.pi/4| = Real.pi/4 from by
    rw [zero_sub, abs_neg, abs_of_pos (by positivity)]]
  rw [Real.cos_pi_div_four]
  rw [if_pos (by positivity : (0:ℝ) ≤ (Real.sqrt 2/2 + 1)/2)]
  rw [ite_self]
  rw [if_neg (by decide : ¬(c2A1.state = Sched.ProcessState.pending))]
  rw [if_neg (by decide : ¬(c2B1.state = Sched.ProcessState.pending))]
  rfl

/-- The second full scheduling cycle starts "a" running. -/
theorem c2_cycle2 :
    Sched.schedule 0
      { processes := [c2A1, c2B1], config := c2Config, tick := 1,
        lastScheduleTime := 0 } =
      ([{ processId := "a", action := Sched.DecisionAction.schedule,
          resonantPriority := 50 + 5 * Real.sqrt 2, coherenceWindow := 1000 }],
       { processes := [c2A2, c2B1], config := c2Config, tick := 2,
         lastScheduleTime := 0 }) := by
  unfold Sched.schedule
  dsimp only
  rw [show ((0:ℝ) - 0)/1000 = 0 from by norm_num]
  rw [updateDynamics_zero c2Config [c2A1, c2B1] (by
    intro p hp
    simp only [List.mem_cons, List.not_mem_nil, or_false] at hp
    rcases hp with h | h <;> subst h
    · exact ⟨le_refl 0, by show (0:ℝ) < 2*Real.pi; positivity,
        by show (0.1:ℝ) ≤ 1; norm_num, by show (1:ℝ) ≤ 2; norm_num⟩
    · exact ⟨by show (0:ℝ) ≤ Real.pi/2; positivity,
        by show Real.pi/2 < 2*Real.pi; linarith [Real.pi_pos],
        by show (0.1:ℝ) ≤ 1; norm_num, by show (1:ℝ) ≤ 2; norm_num⟩)]
  rw [c2_crp2]
  rw [c2_mk2]
  rfl

/-- Submitting "c" (phase draw 1/4) appends `c2C0`. -/
theorem c2_submit_c :
    Sched.submit (1/4) 0 "c" "c" Sched.ProcessClass.classical (c2Opts 50 0)
      { processes := [c2A2, c2B1], config := c2Config, tick := 2,
        lastScheduleTime := 0 } =
      { processes := [c2A2, c2B1, c2C0], config := c2Config, tick := 2,
        lastScheduleTime := 0 } := by
  unfold Sched.submit Sched.setProcess
  simp [c2Opts, c2A0, c2B0, c2C0, c2A1, c2B1, c2A2, c2Config,
    Sched.frequencyForClass, Sched.getDampingForClass, Sched.handednessForClass]
  ring_nf
  trivial

/-- Third cycle priority pass with mean phase `arctan 2`. -/
theorem c2_crp3 :
    Sched.calculateResonantPriorities 0 [c2A2, c2B1, c2C0] =
      [c2A3, c2B1, c2C1p] := by
  have h5 : Real.sqrt 5 * Real.sqrt 5 = 5 := Real.mul_self_sqrt (by norm_num)
  have h5pos : (0:ℝ) < Real.sqrt 5 := by positivity
  have h5lo : (2:ℝ) ≤ Real.sqrt 5 := by nlinarith [Real.sqrt_nonneg 5]
  have h5hi : Real.sqrt 5 ≤ 2.5 := by nlinarith [Real.sqrt_nonneg 5]
  have hat_pos : (0:ℝ) < Real.arctan 2 := by
    have h := Real.arctan_strictMono (show (0:ℝ) < 2 by norm_num)
    rwa [Real.arctan_zero] at h
  have h10 : (1:ℝ)/Real.sqrt 5 * 10 = 2 * Real.sqrt 5 := by
    rw [div_mul_eq_mul_div, div_eq_iff (ne_of_gt h5pos)]
    nlinarith [h5]
  have h20 : (2:ℝ)/Real.sqrt 5 * 10 = 4 * Real.sqrt 5 := by
    rw [div_mul_eq_mul_div, div_eq_iff (ne_of_gt h5pos)]
    nlinarith [h5]
  unfold Sched.calculateResonantPriorities
  dsimp only
  rw [c2_orderSched_abc _ (by simp [c2A2, c2B1, c2C0, c2A1, c2A0, c2B0])]
  dsimp only
  simp only [List.map_cons, List.map_nil, List.cons.injEq, and_true]
  refine ⟨?_, ?_, ?_⟩
  · rw [if_neg (by decide : ¬(c2A2.state = Sched.ProcessState.completed))]
    rw [show c2A2.phase = (0:ℝ) from rfl]
    rw [show |(0:ℝ) - Real.arctan 2| = Real.arctan 2 from by
      rw [zero_sub, abs_neg, abs_of_pos hat_pos]]
    rw [Real.cos_arctan]
    rw [show (1:ℝ) + 2^2 = 5 from by norm_num]
    rw [show c2A2.handedness = Safety.Handedness.achiral from rfl]
    rw [if_neg (by simp : ¬(Safety.Handedness.achiral = Safety.Handedness.right ∧
      0.7 < Real.sqrt 5 / 3))]
    rw [show c2A2.waitTime = (0:ℝ) from rfl]
    rw [show (0:ℝ)/1000 = 0 from by norm_num,
      min_eq_left (by norm_num : (0:ℝ) ≤ 20)]
    rw [show c2A2.coherenceDeadline = (1000000:ℝ) from rfl]
    rw [if_neg (by norm_num : ¬((1000000:ℝ) - 0 < 10000))]
    rw [show c2A2.processClass = Sched.ProcessClass.classical from rfl]
    rw [if_neg (by simp : ¬(Sched.ProcessClass.classical = Sched.ProcessClass.quantum ∧
      0 < c2A2.qubitsRequired))]
    rw [if_neg (by simp :
      ¬(Sched.ProcessClass.classical = Sched.ProcessClass.consciousness))]
    rw [show c2A2.priority = (50:ℝ) from rfl]
    rw [add_zero, h10]
    rw [min_eq_right (by nlinarith [h5hi] : (50:ℝ) + 2 * Real.sqrt 5 ≤ 100)]
    rw [max_eq_right (by positivity : (0:ℝ) ≤ 50 + 2 * Real.sqrt 5)]
    rfl
  · rw [if_neg (by decide : ¬(c2B1.state = Sched.ProcessState.completed))]
    rw [show c2B1.phase = Real.pi/2 from rfl]
    rw [show |Real.pi/2 - Real.arctan 2| = Real.pi/2 - Real.arctan 2 from
      abs_of_pos (by linarith [Real.arctan_lt_pi_div_two 2])]
    rw [Real.cos_pi_div_two_sub, Real.sin_arctan]
    rw [show (1:ℝ) + 2^2 = 5 from by norm_num]
    rw [show c2B1.handedness = Safety.Handedness.achiral from rfl]
    rw [if_neg (by simp : ¬(Safety.Handedness.achiral = Safety.Handedness.right ∧
      0.7 < Real.sqrt 5 / 3))]
    rw [show c2B1.waitTime = (0:ℝ) from rfl]
    rw [show (0:ℝ)/1000 = 0 from by norm_num,
      min_eq_left (by norm_num : (0:ℝ) ≤ 20)]
    rw [show c2B1.coherenceDeadline = (1000000:ℝ) from rfl]
    rw [if_neg (by norm_num : ¬((1000000:ℝ) - 0 < 10000))]
    rw [show c2B1.processClass = Sched.ProcessClass.classical from rfl]
    rw [if_neg (by simp : ¬(Sched.ProcessClass.classical = Sched.ProcessClass.quantum ∧
      0 < c2B1.qubitsRequired))]
    rw [if_neg (by simp :
      ¬(Sched.ProcessClass.classical = Sched.ProcessClass.consciousness))]
    rw [show c2B1.priority = (99:ℝ) from rfl]
    rw [add_zero, h20]
    rw [min_eq_left (by nlinarith [h5lo] : (100:ℝ) ≤ 99 + 4 * Real.sqrt 5)]
    rw [max_eq_right (by norm_num : (0:ℝ) ≤ 100)]
    rfl
  · rw [if_neg (by decide : ¬(c2C0.state = Sched.ProcessState.completed))]
    rw [show c2C0.phase = Real.pi/2 from rfl]
    rw [show |Real.pi/2 - Real.arctan 2| = Real.pi/2 - Real.arctan 2 from
      abs_of_pos (by linarith [Real.arctan_lt_pi_div_two 2])]
    rw [Real.cos_pi_div_two_sub, Real.sin_arctan]
    rw [show (1:ℝ) + 2^2 = 5 from by norm_num]
    rw [show c2C0.handedness = Safety.Handedness.achiral from rfl]
    rw [if_neg (by simp : ¬(Safety.Handedness.achiral = Safety.Handedness.right ∧
      0.7 < Real.sqrt 5 / 3))]
    rw [show c2C0.waitTime = (0:ℝ) from rfl]
    rw [show (0:ℝ)/1000 = 0 from by norm_num,
      min_eq_left (by norm_num : (0:ℝ) ≤ 20)]
    rw [show c2C0.coherenceDeadline = (1000000:ℝ) from rfl]
    rw [if_neg (by norm_num : ¬((1000000:ℝ) - 0 < 10000))]
    rw [show c2C0.processClass = Sched.ProcessClass.classical from rfl]
    rw [if_neg (by simp : ¬(Sched.ProcessClass.classical = Sched.ProcessClass.quantum ∧
      0 < c2C0.qubitsRequired))]
    rw [if_neg (by simp :
      ¬(Sched.ProcessClass.classical = Sched.ProcessClass.consciousness))]
    rw [show c2C0.priority = (50:ℝ) from rfl]
    rw [add_zero, h20]
    rw [min_eq_right (by nlinarith [h5hi] : (50:ℝ) + 4 * Real.sqrt 5 ≤ 100)]
    rw [max_eq_right (by positivity : (0:ℝ) ≤ 50 + 4 * Real.sqrt 5)]
    rfl

/-- Third cycle decisions: the coherence of "b", now `(2/√5+1)/2 ≈ 0.947`,
meets its 0.9 requirement, so the coherence-wait wake-up emits a schedule
decision although the only slot is occupied by the running "a" (the fill is
empty). -/
theorem c2_mk3 :
    Sched.makeDecisions
      { processes := [c2A3, c2B1, c2C1p], config := c2Config, tick := 2,
        lastScheduleTime := 0 } =
      ([{ processId := "b", action := Sched.DecisionAction.schedule,
          resonantPriority := 100, coherenceWindow := 1000 }],
       [c2A3, c2B1, c2C1]) := by
  have h5 : Real.sqrt 5 * Real.sqrt 5 = 5 := Real.mul_self_sqrt (by norm_num)
  have h5pos : (0:ℝ) < Real.sqrt 5 := by positivity
  have h5hi : Real.sqrt 5 ≤ 2.5 := by nlinarith [Real.sqrt_nonneg 5]
  unfold Sched.makeDecisions
  dsimp only
  rw [c2_orderSched_abc _ (by simp [c2A3, c2B1, c2C1p, c2A2, c2A1, c2A0, c2B0, c2C0])]
  dsimp only
  have hcw : Sched.getProcessesByState Sched.ProcessState.coherenceWait
      [c2A3, c2B1, c2C1p] = [c2B1] := by
    simp [Sched.getProcessesByState, c2A3, c2B1, c2C1p, c2A2, c2A1, c2A0, c2B0, c2C0]
  have hre : Sched.getProcessesByState Sched.ProcessState.ready
      [c2A3, c2B1, c2C1p] = [] := by
    simp [Sched.getProcessesByState, c2A3, c2B1, c2C1p, c2A2, c2A1, c2A0, c2B0, c2C0]
  have hru : Sched.getProcessesByState Sched.ProcessState.running
      [c2A3, c2B1, c2C1p] = [c2A3] := by
    simp [Sched.getProcessesByState, c2A3, c2B1, c2C1p, c2A2, c2A1, c2A0, c2B0, c2C0]
  have hpe : Sched.getProcessesByState Sched.ProcessState.pending
      [c2A3, c2B1, c2C1p] = [c2C1p] := by
    simp [Sched.getProcessesByState, c2A3, c2B1, c2C1p, c2A2, c2A1, c2A0, c2B0, c2C0]
  rw [hcw, hre, hru, hpe]
  simp only [List.filterMap_cons, List.filterMap_nil, List.length_cons,
    List.length_nil, List.map_cons, List.map_nil]
  rw [show c2B1.coherenceRequired = (0.9:ℝ) from rfl,
    show c2B1.phase = Real.pi/2 from rfl]
  rw [show |Real.pi/2 - Real.arctan 2| = Real.pi/2 - Real.arctan 2 from
    abs_of_pos (by linarith [Real.arctan_lt_pi_div_two 2])]
  rw [Real.cos_pi_div_two_sub, Real.sin_arctan]
  rw [show (1:ℝ) + 2^2 = 5 from by norm_num]
  rw [if_pos (show (0.9:ℝ) ≤ (2/Real.sqrt 5 + 1)/2 from by
    rw [div_add' _ _ _ (ne_of_gt h5pos), div_div]
    rw [le_div_iff₀ (by positivity)]
    nlinarith [h5hi, h5pos])]
  rw [if_neg (show ¬((0:ℤ) < (c2Config.maxRunning : ℤ) - (0 + 1 : ℕ)) from by
    norm_num [c2Config])]
  rw [if_neg (show ¬((0 : ℕ) ≠ 0 ∧ c2Config.maxRunning ≤ (0 + 1 : ℕ)) from by simp)]
  rw [if_neg (by decide : ¬(c2A3.state = Sched.ProcessState.pending))]
  rw [if_neg (by decide : ¬(c2B1.state = Sched.ProcessState.pending))]
  rw [if_pos (show c2C1p.state = Sched.ProcessState.pending from rfl)]
  rfl

/-- The third full scheduling cycle starts "b" while "a" is still running. -/
theorem c2_cycle3 :
    Sched.schedule 0
      { processes := [c2A2, c2B1, c2C0], config := c2Config, tick := 2,
        lastScheduleTime := 0 } =
      ([{ processId := "b", action := Sched.DecisionAction.schedule,
          resonantPriority := 100, coherenceWindow := 1000 }],
       { processes := [c2A3, c2B2, c2C1], config := c2Config, tick := 3,
         lastScheduleTime := 0 }) := by
  unfold Sched.schedule
  dsimp only
  rw [show ((0:ℝ) - 0)/1000 = 0 from by norm_num]
  rw [updateDynamics_zero c2Config [c2A2, c2B1, c2C0] (by
    intro p hp
    simp only [List.mem_cons, List.not_mem_nil, or_false] at hp
    rcases hp with h | h | h <;> subst h
    · exact ⟨le_refl 0, by show (0:ℝ) < 2*Real.pi; positivity,
        by show (0.1:ℝ) ≤ 1; norm_num, by show (1:ℝ) ≤ 2; norm_num⟩
    · exact ⟨by show (0:ℝ) ≤ Real.pi/2; positivity,
        by show Real.pi/2 < 2*Real.pi; linarith [Real.pi_pos],
        by show (0.1:ℝ) ≤ 1; norm_num, by show (1:ℝ) ≤ 2; norm_num⟩
    · exact ⟨by show (0:ℝ) ≤ Real.pi/2; positivity,
        by show Real.pi/2 < 2*Real.pi; linarith [Real.pi_pos],
        by show (0.1:ℝ) ≤ 1; norm_num, by show (1:ℝ) ≤ 2; norm_num⟩)]
  rw [c2_crp3]
  rw [c2_mk3]
  rfl

/-- C2 counterexample: with `maxRunning = 1`, after submitting "a" and
"b", two scheduling cycles, submitting "c" and a third cycle (all at
`Date.now() = 0`), the registry holds two running tasks: coherence-wait
wake-ups are admitted without consulting the slot cap. -/
theorem claim_C2_counterexample :
    Sched.countRunning (Sched.schedule 0 (Sched.submit (1/4) 0 "c" "c"
      Sched.ProcessClass.classical (c2Opts 50 0)
      (Sched.schedule 0 (Sched.schedule 0 (Sched.submit (1/4) 0 "b" "b"
        Sched.ProcessClass.classical (c2Opts 99 (9/10))
        (Sched.submit 0 0 "a" "a" Sched.ProcessClass.classical (c2Opts 50 0)
          c2Empty))).2).2)).2 = 2 ∧
    c2Config.maxRunning = 1 := by
  constructor
  · rw [c2_submit_a, c2_submit_b, c2_cycle1]
    dsimp only
    rw [c2_cycle2]
    dsimp only
    rw [c2_submit_c, c2_cycle3]
    dsimp only
    unfold Sched.countRunning
    simp [c2A3, c2B2, c2C1, c2A2, c2A1, c2B1, c2C0, c2A0, c2B0]
  · rfl

/-- C2 amended: in every decision pass the slot-filling component alone
respects the cap, emitting at most `maxRunning − runningCount` decisions
drawn from ready+pending, while coherence-wait wake-ups are additional
unconditional schedule decisions for coherence_wait tasks; any remaining
decisions are preemptions. -/
theorem claim_C2_amended (m : Sched.SchedulerModel) :
    ∃ cw fill pre,
      (Sched.makeDecisions m).1 = cw ++ fill ++ pre ∧
      fill.length ≤ ((m.config.maxRunning : ℤ) -
        (Sched.getProcessesByState Sched.ProcessState.running
          m.processes).length).toNat ∧
      (∀ d ∈ cw, d.action = Sched.DecisionAction.schedule ∧
        ∃ p ∈ m.processes, p.state = Sched.ProcessState.coherenceWait ∧
          d.processId = p.id) ∧
      (∀ d ∈ pre, d.action = Sched.DecisionAction.preempt) := by
  unfold Sched.makeDecisions
  dsimp only
  refine ⟨_, _, _, rfl, ?_, ?_, ?_⟩
  · split_ifs with h
    · rw [List.length_map, List.length_take]
      exact le_trans (min_le_left _ _) (min_le_left _ _)
    · simp
  · intro d hd
    obtain ⟨p, hp, heq⟩ := List.mem_filterMap.mp hd
    obtain ⟨hmem, hst⟩ := List.mem_filter.mp hp
    by_cases hc : p.coherenceRequired ≤
        (Real.cos |p.phase - (Sched.calculateOrderParameterSched m.processes).2| + 1) / 2
    · rw [if_pos hc, Option.some.injEq] at heq
      subst heq
      exact ⟨rfl, p, hmem, of_decide_eq_true hst, rfl⟩
    · rw [if_neg hc] at heq
      exact absurd heq (Option.noConfusion)
  · intro d hd
    revert hd
    split_ifs with h
    · rcases hru : Sched.getProcessesByState Sched.ProcessState.running m.processes with
        _ | ⟨r0, rt⟩ <;>
      rcases hre : Sched.getProcessesByState Sched.ProcessState.ready m.processes with
        _ | ⟨q0, qt⟩ <;>
      simp only [List.not_mem_nil, false_implies, List.mem_singleton]
      all_goals intro hd
      all_goals first
        | exact absurd hd (List.not_mem_nil d)
        | (revert hd
           split_ifs with h2
           · intro hd
             rw [List.mem_singleton.mp hd]
           · exact fun hd => absurd hd (List.not_mem_nil d))
    · exact fun hd => absurd hd (List.not_mem_nil d)

end Ghost
